import Mathlib

/-!
Verification development for the financial-decision simulator engine
(`financial-decision-sim/sim.js`).

Shallow embedding conventions:
* JS numbers are modelled as exact rationals (`ℚ`).  All arithmetic the
  engine performs (addition, multiplication by decimal constants,
  `Math.floor`, `Math.min`/`Math.max`) is modelled exactly; IEEE-754
  rounding is idealized away.
* The Mulberry32 RNG state is a natural number accumulator; JavaScript's
  bitwise coercions (`>>> 0`, `Math.imul`, `^`, `|`) operate on the value
  mod 2^32, which is modelled with explicit `% 2^32` reductions on `Nat`.
* `runMeta` is always present (the JS code lazily materializes it via
  `ensureRunMeta`, which is observationally the same as starting from the
  empty ledger); the cooldown `Map` is modelled as a function
  `String → Option Nat`, matching `Map` get/set/delete semantics.
* Narration strings and the per-year `log` array are not consumed by any
  engine logic and are omitted; card/event results keep their `ok` flag
  and identifiers.
-/

namespace FinSim

attribute [local semireducible] Rat.add Rat.sub Rat.mul Rat.inv Rat.ofScientific

/-- JavaScript `Math.floor` on an exact rational, returned as a rational. -/
def jsFloor (q : ℚ) : ℚ := (⌊q⌋ : ℚ)

/-- JavaScript `Math.round` (half-up, i.e. `⌊x + 1/2⌋`). -/
def jsRound (q : ℚ) : ℤ := ⌊q + 1/2⌋

/-- `clamp(v, min, max)` from sim.js: `Math.max(min, Math.min(max, v))`. -/
def clamp (v lo hi : ℚ) : ℚ := max lo (min hi v)

/-- Reduction of a JS number to its unsigned 32-bit pattern (`>>> 0` etc.). -/
def u32 (n : ℕ) : ℕ := n % 4294967296

/-- JavaScript `Math.imul`: 32-bit product, viewed through its unsigned bit
pattern. -/
def imul32 (a b : ℕ) : ℕ := (a * b) % 4294967296

/-- The output mixing of one Mulberry32 step (`createRng`'s returned closure),
computed on the unsigned 32-bit pattern of the advanced state. -/
def mulberryOut (s : ℕ) : ℕ :=
  let t0 := u32 s
  let t1 := imul32 (Nat.xor t0 (t0 >>> 15)) (Nat.lor t0 1)
  let t2 := Nat.xor t1 (u32 (t1 + imul32 (Nat.xor t1 (t1 >>> 7)) (Nat.lor t1 61)))
  u32 (Nat.xor t2 (t2 >>> 14))

/-- RNG state: the Mulberry32 accumulator `s` from `createRng`. -/
abbrev Rng : Type := ℕ

/-- One call of the RNG closure: advance `s` by `0x6D2B79F5` and emit
`mixed / 2^32 ∈ [0,1)`. -/
def rngNext (g : Rng) : ℚ × Rng :=
  let s' : ℕ := g + 0x6D2B79F5
  ((mulberryOut s' : ℚ) / 4294967296, s')

/-- `hashStringToInt` (FNV-1a style) over the sequence of UTF-16 char codes. -/
def hashStringToInt (codes : List ℕ) : ℕ :=
  codes.foldl (fun h c => imul32 (Nat.xor h (u32 c)) 16777619) 2166136261

/-- A seed is a string (given by its char codes) or an integer number. -/
inductive Seed
  | str : List ℕ → Seed
  | num : ℤ → Seed

/-- `createRng`: string seeds are hashed, numeric seeds are taken `>>> 0`. -/
def createRng : Seed → Rng
  | .str cs => hashStringToInt cs
  | .num n => (n % 4294967296).toNat

/-- The `flags` object of a State, with the defaults of
`createInitialState`.  All flag values the engine stores are numbers except
`laidOff`. -/
structure Flags where
  laidOff : Bool := false
  medicalDebt : ℚ := 0
  emergencyFundBuff : ℚ := 0
  autoInvest : ℚ := 0
  refiLevel : ℚ := 0
  insuranceLevel : ℚ := 0
  regretDrag : ℚ := 0
  careerMomentum : ℚ := 0
  propertyExposure : ℚ := 0
  businessLevel : ℚ := 0

/-- The run ledger (`runMeta`): unlocked / exhausted card ids and the
cooldown map. -/
structure RunMeta where
  unlocked : List String := []
  exhausted : List String := []
  cooldowns : String → Option ℕ := fun _ => none

/-- Set-style add for the `unlocked` / `exhausted` ledgers (JS `Set.add`). -/
def setAdd (l : List String) (x : String) : List String :=
  if l.contains x then l else l ++ [x]

/-- Snapshot of one simulated year (`stepYear`'s return value), with
narration/log text omitted. -/
structure Snapshot where
  year : ℚ
  cash : ℤ
  invested : ℤ
  debt : ℤ
  income : ℤ
  expenses : ℤ
  stress : ℤ
  burnout : ℤ
  rentalUnits : ℚ
  sideHustleLevel : ℚ
  netWorth : ℤ
  marketReturn : ℚ
  chosenCardIds : List String
  cardResults : List Bool
  eventId : Option String
  flags : Flags

/-- The mutable run state of the engine. -/
structure SimState where
  year : ℚ
  cash : ℚ
  invested : ℚ
  debt : ℚ
  income : ℚ
  expenses : ℚ
  stress : ℚ
  risk : ℚ
  discipline : ℚ
  burnout : ℚ
  rentalUnits : ℚ
  sideHustleLevel : ℚ
  flags : Flags
  runMeta : RunMeta
  history : List Snapshot

/-- Optional overrides accepted by `createInitialState`. -/
structure SimConfig where
  year : Option ℚ := none
  cash : Option ℚ := none
  invested : Option ℚ := none
  debt : Option ℚ := none
  income : Option ℚ := none
  expenses : Option ℚ := none
  stress : Option ℚ := none
  risk : Option ℚ := none
  discipline : Option ℚ := none
  burnout : Option ℚ := none
  rentalUnits : Option ℚ := none
  sideHustleLevel : Option ℚ := none

/-- `createInitialState(config)`: destructuring with defaults; supplied
values are used as-is (the source performs no clamping here). -/
def createInitialState (cfg : SimConfig) : SimState where
  year := cfg.year.getD 1
  cash := cfg.cash.getD 8000
  invested := cfg.invested.getD 0
  debt := cfg.debt.getD 12000
  income := cfg.income.getD 52000
  expenses := cfg.expenses.getD 36000
  stress := cfg.stress.getD 25
  risk := cfg.risk.getD 0.45
  discipline := cfg.discipline.getD 0.50
  burnout := cfg.burnout.getD 0
  rentalUnits := cfg.rentalUnits.getD 0
  sideHustleLevel := cfg.sideHustleLevel.getD 0
  flags := {}
  runMeta := {}
  history := []

/-- `netWorth(state)`. -/
def netWorth (s : SimState) : ℚ :=
  let rentalEquity := s.rentalUnits * 15000
  let medicalDebt := s.flags.medicalDebt
  s.cash + s.invested + rentalEquity - s.debt - medicalDebt

/-- `tickCooldowns`: decrement every counter, deleting entries that reach
zero or below. -/
def tickCooldowns (s : SimState) : SimState :=
  { s with runMeta := { s.runMeta with
      cooldowns := fun id =>
        match s.runMeta.cooldowns id with
        | none => none
        | some y => if y ≤ 1 then none else some (y - 1) } }

/-- `unlockCards`. -/
def unlockCards (s : SimState) (ids : List String) : SimState :=
  { s with runMeta := { s.runMeta with
      unlocked := ids.foldl setAdd s.runMeta.unlocked } }

/-- Card rarities. -/
inductive Rarity
  | common | uncommon | rare | legendary
deriving DecidableEq

/-- Card types. -/
inductive CType
  | money | career | lifestyle | ownership | defense | wildcard
deriving DecidableEq

/-- A card outcome is its `ok` flag together with the updated state and RNG
(narration omitted). -/
abbrev CardOutcome := Bool × SimState × Rng

/-- An immutable card catalog entry. -/
structure Card where
  id : String
  ctype : CType
  rarity : Rarity
  tags : List String
  cooldownYears : ℕ := 0
  exhaust : Bool := false
  requires : SimState → Bool
  apply : SimState → Rng → CardOutcome

/-- `index_investing`. -/
def indexInvestingCard : Card where
  id := "index_investing"
  ctype := .money
  rarity := .common
  tags := ["investing", "compounding"]
  requires := fun s => decide (500 ≤ s.cash)
  apply := fun s g =>
    let amount := min s.cash 6000
    if amount ≤ 0 then (false, s, g)
    else (true, { s with
      cash := s.cash - amount
      invested := s.invested + amount
      discipline := clamp (s.discipline + 0.02) 0 1
      stress := clamp (s.stress - 2) 0 100 }, g)

/-- `pay_down_debt`. -/
def payDownDebtCard : Card where
  id := "pay_down_debt"
  ctype := .money
  rarity := .common
  tags := ["debt", "stability"]
  requires := fun s => decide (0 < s.debt ∧ 300 ≤ s.cash)
  apply := fun s g =>
    let amount := min (min s.cash 5000) s.debt
    if amount ≤ 0 then (false, s, g)
    else (true, { s with
      cash := s.cash - amount
      debt := s.debt - amount
      stress := clamp (s.stress - 6) 0 100
      discipline := clamp (s.discipline + 0.01) 0 1 }, g)

/-- `build_emergency_fund`. -/
def buildEmergencyFundCard : Card where
  id := "build_emergency_fund"
  ctype := .defense
  rarity := .common
  tags := ["stability", "defense"]
  requires := fun _ => true
  apply := fun s g =>
    (true, { s with
      stress := clamp (s.stress - 4) 0 100
      discipline := clamp (s.discipline + 0.02) 0 1
      flags := { s.flags with
        emergencyFundBuff := clamp (s.flags.emergencyFundBuff + 1) 0 3 } }, g)

/-- `reduce_lifestyle`. -/
def reduceLifestyleCard : Card where
  id := "reduce_lifestyle"
  ctype := .lifestyle
  rarity := .common
  tags := ["expenses", "discipline", "stability"]
  requires := fun s => decide (0 < s.expenses)
  apply := fun s g =>
    let r := (rngNext g).1
    let g1 := (rngNext g).2
    let cut := jsFloor (s.expenses * (0.03 + r * 0.04))
    (true, { s with
      expenses := max 0 (s.expenses - cut)
      stress := clamp (s.stress - 5) 0 100
      discipline := clamp (s.discipline + 0.02) 0 1 }, g1)

/-- `negotiate_bills`. -/
def negotiateBillsCard : Card where
  id := "negotiate_bills"
  ctype := .lifestyle
  rarity := .common
  tags := ["expenses", "defense"]
  requires := fun s => decide (0 < s.expenses)
  apply := fun s g =>
    let r := (rngNext g).1
    let g1 := (rngNext g).2
    let cut := jsFloor (600 + r * 1400)
    (true, { s with
      expenses := max 0 (s.expenses - cut)
      discipline := clamp (s.discipline + 0.015) 0 1
      stress := clamp (s.stress - 2) 0 100 }, g1)

/-- `skill_sprint`. -/
def skillSprintCard : Card where
  id := "skill_sprint"
  ctype := .career
  rarity := .common
  tags := ["career", "growth", "stress"]
  requires := fun s => decide (s.burnout < 95)
  apply := fun s g =>
    let s1 := { s with
      flags := { s.flags with
        careerMomentum := clamp (s.flags.careerMomentum + 1) 0 5 }
      discipline := clamp (s.discipline + 0.03) 0 1
      stress := clamp (s.stress + 5) 0 100
      burnout := clamp (s.burnout + 6) 0 100 }
    let r := (rngNext g).1
    let g1 := (rngNext g).2
    if r < 0.25 then
      let r2 := (rngNext g1).1
      let g2 := (rngNext g1).2
      let bump := jsFloor (1200 + r2 * 2400)
      (true, { s1 with income := s1.income + bump }, g2)
    else (true, s1, g1)

/-- `side_hustle`. -/
def sideHustleCard : Card where
  id := "side_hustle"
  ctype := .career
  rarity := .common
  tags := ["hustle", "income", "burnout"]
  requires := fun s => decide (800 + s.sideHustleLevel * 500 ≤ s.cash)
  apply := fun s g =>
    let lvl := s.sideHustleLevel
    let cost := 800 + lvl * 500
    if s.cash < cost then (false, s, g)
    else
      let r := (rngNext g).1
      let g1 := (rngNext g).2
      let bump := jsFloor ((900 + r * 2000) * (1 + 0.35 * (lvl + 1)))
      (true, { s with
        cash := s.cash - cost
        sideHustleLevel := lvl + 1
        income := s.income + bump
        stress := clamp (s.stress + (6 + lvl * 2)) 0 100
        burnout := clamp (s.burnout + 8) 0 100 }, g1)

/-- `automate_savings`. -/
def automateSavingsCard : Card where
  id := "automate_savings"
  ctype := .money
  rarity := .common
  tags := ["investing", "system", "discipline"]
  requires := fun _ => true
  apply := fun s g =>
    (true, { s with
      flags := { s.flags with autoInvest := clamp (s.flags.autoInvest + 1) 0 5 }
      discipline := clamp (s.discipline + 0.02) 0 1
      stress := clamp (s.stress - 1) 0 100 }, g)

/-- `overtime_push`. -/
def overtimePushCard : Card where
  id := "overtime_push"
  ctype := .career
  rarity := .common
  tags := ["income", "stress", "burnout"]
  cooldownYears := 1
  requires := fun s => decide (s.burnout < 92)
  apply := fun s g =>
    let r := (rngNext g).1
    let g1 := (rngNext g).2
    let bonus := jsFloor (1200 + r * 4200)
    (true, { s with
      cash := s.cash + bonus
      stress := clamp (s.stress + 7) 0 100
      burnout := clamp (s.burnout + 9) 0 100 }, g1)

/-- `do_nothing`. -/
def doNothingCard : Card where
  id := "do_nothing"
  ctype := .lifestyle
  rarity := .common
  tags := ["recovery", "stability"]
  requires := fun _ => true
  apply := fun s g =>
    (true, { s with
      stress := clamp (s.stress - 3) 0 100
      burnout := clamp (s.burnout - 5) 0 100 }, g)

/-- `career_move`. -/
def careerMoveCard : Card where
  id := "career_move"
  ctype := .career
  rarity := .uncommon
  tags := ["income", "volatility"]
  cooldownYears := 2
  requires := fun s => decide (s.burnout < 95)
  apply := fun s g =>
    let momentum := s.flags.careerMomentum
    let successP := clamp
      (0.66 + (s.discipline - 0.5) * 0.25 - (s.stress / 100) * 0.18 + momentum * 0.03)
      0.30 0.90
    let r := (rngNext g).1
    let g1 := (rngNext g).2
    if r < successP then
      let r2 := (rngNext g1).1
      let g2 := (rngNext g1).2
      let bump := jsFloor (4000 + r2 * 14000)
      (true, { s with
        income := s.income + bump
        stress := clamp (s.stress + 4) 0 100 }, g2)
    else
      let r2 := (rngNext g1).1
      let g2 := (rngNext g1).2
      let hit := jsFloor (6000 + r2 * 14000)
      (true, { s with
        income := max 0 (s.income - hit)
        stress := clamp (s.stress + 14) 0 100
        flags := { s.flags with laidOff := true } }, g2)

/-- `debt_refi`. -/
def debtRefiCard : Card where
  id := "debt_refi"
  ctype := .money
  rarity := .uncommon
  tags := ["debt", "stability"]
  cooldownYears := 3
  requires := fun s => decide (8000 < s.debt ∧ 0.55 ≤ s.discipline)
  apply := fun s g =>
    let s1 := { s with
      flags := { s.flags with refiLevel := clamp (s.flags.refiLevel + 1) 0 2 } }
    let r := (rngNext g).1
    let g1 := (rngNext g).2
    let fee := jsFloor (400 + r * 900)
    let s2 :=
      if fee ≤ s1.cash then { s1 with cash := s1.cash - fee }
      else { s1 with debt := s1.debt + (fee - s1.cash) * 1.1, cash := 0 }
    (true, { s2 with stress := clamp (s2.stress - 6) 0 100 }, g1)

/-- `start_business`. -/
def startBusinessCard : Card where
  id := "start_business"
  ctype := .career
  rarity := .uncommon
  tags := ["income", "high-upside", "burnout"]
  cooldownYears := 2
  requires := fun s => decide (2500 ≤ s.cash ∧ s.burnout < 85)
  apply := fun s g =>
    let r := (rngNext g).1
    let g1 := (rngNext g).2
    let seedCost := jsFloor (2000 + r * 4000)
    if s.cash < seedCost then (false, s, g1)
    else
      let s1 := { s with
        cash := s.cash - seedCost
        flags := { s.flags with
          businessLevel := clamp (s.flags.businessLevel + 1) 0 5 } }
      let level := s1.flags.businessLevel
      let r1 := (rngNext g1).1
      let g2 := (rngNext g1).2
      let r2 := (rngNext g2).1
      let g3 := (rngNext g2).2
      let r3 := (rngNext g3).1
      let g4 := (rngNext g3).2
      let r4 := (rngNext g4).1
      let g5 := (rngNext g4).2
      let noise := (r1 + r2 + r3 + r4 - 2) / 2
      let bump := jsFloor ((2500 + level * 1800) * (1 + noise * 0.9))
      (true, { s1 with
        income := max 0 (s1.income + bump)
        stress := clamp (s1.stress + (10 + level * 2)) 0 100
        burnout := clamp (s1.burnout + 14) 0 100 }, g5)

/-- `buy_rental`. -/
def buyRentalCard : Card where
  id := "buy_rental"
  ctype := .ownership
  rarity := .uncommon
  tags := ["ownership", "leverage", "income"]
  cooldownYears := 2
  requires := fun s => decide (12000 ≤ s.cash)
  apply := fun s g =>
    let r1 := (rngNext g).1
    let g1 := (rngNext g).2
    let addedDebt := jsFloor (60000 + r1 * 20000)
    let r2 := (rngNext g1).1
    let g2 := (rngNext g1).2
    let cashflow := jsFloor (800 + r2 * 2800)
    (true, { s with
      cash := s.cash - 12000
      debt := s.debt + addedDebt
      rentalUnits := s.rentalUnits + 1
      income := s.income + cashflow
      stress := clamp (s.stress + 10) 0 100
      risk := clamp (s.risk + 0.06) 0 1
      flags := { s.flags with
        propertyExposure := clamp (s.flags.propertyExposure + 1) 0 5 } }, g2)

/-- `house_hack`. -/
def houseHackCard : Card where
  id := "house_hack"
  ctype := .ownership
  rarity := .uncommon
  tags := ["ownership", "stability", "income"]
  cooldownYears := 2
  requires := fun s => decide (8000 ≤ s.cash ∧ s.stress ≤ 85)
  apply := fun s g =>
    let r1 := (rngNext g).1
    let g1 := (rngNext g).2
    let cost := jsFloor (8000 + r1 * 4000)
    if s.cash < cost then (false, s, g1)
    else
      let r2 := (rngNext g1).1
      let g2 := (rngNext g1).2
      let addedDebt := jsFloor (25000 + r2 * 15000)
      let r3 := (rngNext g2).1
      let g3 := (rngNext g2).2
      let expenseDrop := jsFloor (1200 + r3 * 2400)
      (true, { s with
        cash := s.cash - cost
        debt := s.debt + addedDebt
        expenses := max 0 (s.expenses - expenseDrop)
        stress := clamp (s.stress + 4) 0 100
        risk := clamp (s.risk + 0.03) 0 1 }, g3)

/-- `insurance_upgrade`. -/
def insuranceUpgradeCard : Card where
  id := "insurance_upgrade"
  ctype := .defense
  rarity := .uncommon
  tags := ["defense", "medical", "stability"]
  cooldownYears := 3
  requires := fun s => decide (0 < s.expenses)
  apply := fun s g =>
    let r := (rngNext g).1
    let g1 := (rngNext g).2
    let added := jsFloor (300 + r * 900)
    (true, { s with
      expenses := s.expenses + added
      flags := { s.flags with
        insuranceLevel := clamp (s.flags.insuranceLevel + 1) 0 2 }
      stress := clamp (s.stress - 2) 0 100 }, g1)

/-- `panic_sell`. -/
def panicSellCard : Card where
  id := "panic_sell"
  ctype := .wildcard
  rarity := .rare
  tags := ["investing", "fear", "cash"]
  exhaust := true
  requires := fun s => decide (1000 < s.invested)
  apply := fun s g =>
    let liquidated := jsFloor (s.invested * 0.95)
    (true, { s with
      invested := s.invested - liquidated
      cash := s.cash + liquidated
      flags := { s.flags with regretDrag := clamp (s.flags.regretDrag + 1) 0 3 }
      stress := clamp (s.stress - 6) 0 100
      discipline := clamp (s.discipline - 0.03) 0 1 }, g)

/-- `windfall_opportunity`. -/
def windfallOpportunityCard : Card where
  id := "windfall_opportunity"
  ctype := .wildcard
  rarity := .rare
  tags := ["luck", "cash", "momentum"]
  exhaust := true
  requires := fun _ => true
  apply := fun s g =>
    let r := (rngNext g).1
    let g1 := (rngNext g).2
    let base := 1200 + r * 3000
    let bonus := jsFloor (base * (1 + s.discipline * 2.2))
    (true, { s with
      cash := s.cash + bonus
      stress := clamp (s.stress - 4) 0 100 }, g1)

/-- The `CARDS` catalog, in source order. -/
def CARDS : List Card :=
  [indexInvestingCard, payDownDebtCard, buildEmergencyFundCard,
   reduceLifestyleCard, negotiateBillsCard, skillSprintCard, sideHustleCard,
   automateSavingsCard, overtimePushCard, doNothingCard,
   careerMoveCard, debtRefiCard, startBusinessCard, buyRentalCard,
   houseHackCard, insuranceUpgradeCard,
   panicSellCard, windfallOpportunityCard]

/-- `initDefaultUnlocks`: all catalog ids are unlocked. -/
def initDefaultUnlocks (s : SimState) : SimState :=
  unlockCards s (CARDS.map (·.id))

/-- `isCardPlayable(state, card)`. -/
def isCardPlayable (s : SimState) (c : Card) : Bool :=
  s.runMeta.unlocked.contains c.id &&
  !s.runMeta.exhausted.contains c.id &&
  !(s.runMeta.cooldowns c.id).isSome &&
  c.requires s

/-- `situationalBiasWeight(state, card)`. -/
def situationalBiasWeight (s : SimState) (c : Card) : ℚ :=
  let hasTag := fun t => c.tags.contains t
  let w : ℚ := 1
  let w := if 70 < s.stress then
      (if c.ctype = .defense then w * 1.7 else w) *
        (if hasTag "recovery" then 1.6 else 1)
    else w
  let w := if 20000 < s.debt then
      (if hasTag "debt" then w * 1.8 else w) *
        (if hasTag "leverage" then 0.75 else 1)
    else w
  let w := if s.cash < 3000 then
      (if hasTag "expenses" || hasTag "stability" || c.ctype = .defense
        then w * 1.6 else w) *
        (if hasTag "ownership" then 0.4 else 1)
    else w
  let w := if 75 < s.burnout then
      (if hasTag "burnout" || hasTag "hustle" then w * 0.55 else w) *
        (if hasTag "recovery" || c.id = "do_nothing" then 1.5 else 1)
    else w
  if 15000 < s.invested ∧ c.id = "panic_sell" then w * 1.15 else w

/-- The weighted-selection loop of `pickWeighted`: subtract weights in
order, return the first item driving the running roll non-positive, and
fall back to the last pool entry. -/
def pickLoop {α : Type} (roll : ℚ) : List (α × ℚ) → Option α
  | [] => none
  | x :: xs =>
    if roll - x.2 ≤ 0 then some x.1
    else
      match xs with
      | [] => some x.1
      | _ :: _ => pickLoop (roll - x.2) xs

/-- `pickWeighted(rng, items)`: filter non-positive weights; return `null`
when the total is non-positive (without consuming the RNG); otherwise draw
`roll = rng() * total` and run the subtraction loop. -/
def pickWeighted {α : Type} (g : Rng) (items : List (α × ℚ)) :
    Option α × Rng :=
  let pool := items.filter (fun x => decide (0 < x.2))
  let total := pool.foldl (fun acc x => acc + x.2) 0
  if total ≤ 0 then (none, g)
  else (pickLoop ((rngNext g).1 * total) pool, (rngNext g).2)

/-- Options accepted by `drawHand`. -/
structure DrawOpts where
  commons : ℕ := 4
  uncommons : ℕ := 2
  includeRareChance : ℚ := 0.28
  includeWildChance : ℚ := 0.30
  maxHand : ℕ := 8

/-- The ids of a hand (the JS `used` set always holds exactly the drawn
cards' ids, so candidates are filtered against the hand directly). -/
def handIds (hand : List Card) : List String := hand.map (·.id)

/-- The inner `drawFrom(pool, n)` loop of `drawHand`: up to `n` weighted
draws without replacement, stopping when the pool is exhausted, a draw
returns `null`, or the hand has reached `maxHand` after a push. -/
def drawFrom (s : SimState) (maxHand : ℕ) (pool : List Card) :
    ℕ → List Card → Rng → List Card × Rng
  | 0, hand, g => (hand, g)
  | n + 1, hand, g =>
    let candidates := pool.filter (fun c => !(handIds hand).contains c.id)
    match candidates with
    | [] => (hand, g)
    | _ :: _ =>
      let pw :=
        pickWeighted g (candidates.map (fun c => (c, 1 * situationalBiasWeight s c)))
      let g1 := pw.2
      match pw.1 with
      | none => (hand, g1)
      | some c =>
        let hand1 := hand ++ [c]
        if maxHand ≤ hand1.length then (hand1, g1)
        else drawFrom s maxHand pool n hand1 g1

/-- `drawHand(state, rng, opts)`. -/
def drawHand (s : SimState) (g : Rng) (opts : DrawOpts) : List Card × Rng :=
  let unlocked := CARDS.filter (fun c => isCardPlayable s c)
  let commonPool := unlocked.filter (fun c => c.rarity = Rarity.common)
  let uncommonPool := unlocked.filter (fun c => c.rarity = Rarity.uncommon)
  let rarePool := unlocked.filter (fun c => c.rarity = Rarity.rare)
  let d1 := drawFrom s opts.maxHand commonPool opts.commons [] g
  let d2 := drawFrom s opts.maxHand uncommonPool opts.uncommons d1.1 d1.2
  let roll1 := rngNext d2.2
  let d3 :=
    if roll1.1 < opts.includeRareChance then
      drawFrom s opts.maxHand rarePool 1 d2.1 roll1.2
    else (d2.1, roll1.2)
  let roll2 := rngNext d3.2
  let d4 :=
    if roll2.1 < opts.includeWildChance then
      let wildPool := unlocked.filter
        (fun c => c.ctype = CType.wildcard && !(handIds d3.1).contains c.id)
      drawFrom s opts.maxHand wildPool 1 d3.1 roll2.2
    else (d3.1, roll2.2)
  if d4.1.length < min opts.maxHand 6 then
    drawFrom s opts.maxHand commonPool
      (min 2 (min opts.maxHand 6 - d4.1.length)) d4.1 d4.2
  else d4

/-- `applyCard(state, rng, cardId)`: look up, check playability, run the
effect, and on success mark exhaust / set the cooldown counter. -/
def applyCard (s : SimState) (g : Rng) (cardId : String) : CardOutcome :=
  match CARDS.find? (fun c => c.id = cardId) with
  | none => (false, s, g)
  | some card =>
    if ¬ isCardPlayable s card then (false, s, g)
    else
      let res := card.apply s g
      let ok := res.1
      let s1 := res.2.1
      let g1 := res.2.2
      if ok then
        let s2 :=
          if card.exhaust then
            { s1 with runMeta := { s1.runMeta with
                exhausted := setAdd s1.runMeta.exhausted card.id } }
          else s1
        let s3 :=
          if 0 < card.cooldownYears then
            { s2 with runMeta := { s2.runMeta with
                cooldowns := fun j =>
                  if j = card.id then some card.cooldownYears
                  else s2.runMeta.cooldowns j } }
          else s2
        (true, s3, g1)
      else (false, s1, g1)

/-- `applyShockBuffer(state, rawAmount)`: reduce by 7% per emergency-fund
buff stack (up to 21%), floored at 0. -/
def applyShockBuffer (s : SimState) (rawAmount : ℚ) : ℚ :=
  let buff := s.flags.emergencyFundBuff
  if buff ≤ 0 then rawAmount
  else max 0 (jsFloor (rawAmount * (1 - buff * 0.07)))

/-- `applyAutoInvest(state)`. -/
def applyAutoInvest (s : SimState) : SimState :=
  let level := s.flags.autoInvest
  if level ≤ 0 then s
  else
    let target := jsFloor (s.income * (0.01 + 0.01 * level))
    let amount := min s.cash (clamp target 200 2500)
    if 0 < amount then
      { s with
        cash := s.cash - amount
        invested := s.invested + amount
        discipline := clamp (s.discipline + 0.01) 0 1
        stress := clamp (s.stress - 1) 0 100 }
    else s

/-- `applyYearlyCashflow(state)`: add `income - expenses` to cash; a
negative balance is zeroed, passed through the shock buffer, rolled into
debt at 1.05x, and raises stress by 10 (clamped). -/
def applyYearlyCashflow (s : SimState) : SimState :=
  let cash1 := s.cash + (s.income - s.expenses)
  if cash1 < 0 then
    let shortfall := -cash1
    let buffered := applyShockBuffer s shortfall
    { s with
      cash := 0
      debt := s.debt + buffered * 1.05
      stress := clamp (s.stress + 10) 0 100 }
  else { s with cash := cash1 }

/-- `applyDebtInterest(state)`. -/
def applyDebtInterest (s : SimState) : SimState :=
  let stressAPR := (s.stress / 100) * 0.06
  let cashPenalty : ℚ := if s.cash < 2000 then 0.03 else 0
  let refiLevel := s.flags.refiLevel
  let refiDiscount : ℚ :=
    if refiLevel = 0 then 0 else if refiLevel = 1 then 0.03 else 0.05
  let apr := clamp (0.10 + stressAPR + cashPenalty - refiDiscount) 0.02 0.30
  { s with debt := s.debt + s.debt * apr }

/-- `applyMarketReturn(state, rng)`: returns the realized rate together with
the updated state and RNG. -/
def applyMarketReturn (s : SimState) (g : Rng) : ℚ × SimState × Rng :=
  let r1 := (rngNext g).1
  let g1 := (rngNext g).2
  let r2 := (rngNext g1).1
  let g2 := (rngNext g1).2
  let r3 := (rngNext g2).1
  let g3 := (rngNext g2).2
  let r4 := (rngNext g3).1
  let g4 := (rngNext g3).2
  let noise := (r1 + r2 + r3 + r4 - 2) / 2
  let rate0 := 0.07 + noise * 0.18
  let behaviorDrag := (s.stress / 100) * 0.03
  let regretDrag := s.flags.regretDrag * 0.012
  let rate := clamp (rate0 - (behaviorDrag + regretDrag)) (-0.45) 0.45
  (rate, { s with invested := s.invested + s.invested * rate }, g4)

/-- An immutable event catalog entry (weight function and effect; the
source effects ignore the rng argument, narration is omitted). -/
structure Event where
  id : String
  weight : SimState → ℚ
  apply : SimState → SimState

/-- `market_crash`. -/
def marketCrashEvent : Event where
  id := "market_crash"
  weight := fun s => 6 + s.risk * 6
  apply := fun s =>
    let loss := s.invested * 0.22
    { s with
      invested := s.invested - loss
      stress := clamp (s.stress + 10) 0 100 }

/-- `medical_bill`. -/
def medicalBillEvent : Event where
  id := "medical_bill"
  weight := fun s =>
    let ef := s.flags.emergencyFundBuff
    let base : ℚ := 5 + (if s.cash < 4000 then 6 else 0)
    max 0 (base - ef * 2)
  apply := fun s =>
    let insuranceLevel := s.flags.insuranceLevel
    let emergencyBuff := s.flags.emergencyFundBuff
    let bill0 := 1800 + jsFloor ((s.stress / 100) * 2500)
    let insuranceMult : ℚ :=
      if insuranceLevel = 0 then 1.0
      else if insuranceLevel = 1 then 0.75 else 0.55
    let bill1 := jsFloor (bill0 * insuranceMult)
    let bill2 := jsFloor (bill1 * (1.0 - 0.08 * emergencyBuff))
    let bill := max 0 bill2
    let s1 :=
      if bill ≤ s.cash then { s with cash := s.cash - bill }
      else
        let remain := bill - s.cash
        let debtPenalty : ℚ :=
          if insuranceLevel = 0 then 1.15
          else if insuranceLevel = 1 then 1.08 else 1.03
        { s with
          cash := 0
          flags := { s.flags with
            medicalDebt := s.flags.medicalDebt + remain * debtPenalty } }
    { s1 with stress := clamp (s1.stress + 8 - insuranceLevel * 2) 0 100 }

/-- `layoff`. -/
def layoffEvent : Event where
  id := "layoff"
  weight := fun s =>
    4 + (if 70 < s.stress then 5 else 0) - s.flags.careerMomentum * 0.5
  apply := fun s =>
    { s with
      flags := { s.flags with laidOff := true }
      stress := clamp (s.stress + 14) 0 100 }

/-- `boring_year`. -/
def boringYearEvent : Event where
  id := "boring_year"
  weight := fun s =>
    10 + (if 8000 < s.cash then 2 else 0) +
      (if 0.65 < s.discipline then 2 else 0)
  apply := fun s =>
    { s with
      stress := clamp (s.stress - 6) 0 100
      burnout := clamp (s.burnout - 6) 0 100 }

/-- `lucky_break`. -/
def luckyBreakEvent : Event where
  id := "lucky_break"
  weight := fun s => 4 + (if 0.6 < s.discipline then 2 else 0)
  apply := fun s =>
    let bonus := 1200 + jsFloor (s.discipline * 8000)
    { s with
      cash := s.cash + bonus
      stress := clamp (s.stress - 4) 0 100 }

/-- `rental_repair`. -/
def rentalRepairEvent : Event where
  id := "rental_repair"
  weight := fun s =>
    let exposure := s.flags.propertyExposure
    let units := s.rentalUnits
    if 0 < units then 4 + units * 3 + exposure * 1.5 else 0
  apply := fun s =>
    let raw := 900 + s.rentalUnits * 700
    let cost := applyShockBuffer s raw
    let s1 :=
      if cost ≤ s.cash then { s with cash := s.cash - cost }
      else { s with
        debt := s.debt + (cost - s.cash) * 1.10
        cash := 0 }
    { s1 with stress := clamp (s1.stress + 6) 0 100 }

/-- The `EVENTS` catalog, in source order. -/
def EVENTS : List Event :=
  [marketCrashEvent, medicalBillEvent, layoffEvent, boringYearEvent,
   luckyBreakEvent, rentalRepairEvent]

/-- `pickWeightedEvent(state, rng)`: clamp weights to `≥ 0` and perform the
same weighted draw as `pickWeighted`. -/
def pickWeightedEvent (s : SimState) (g : Rng) : Option Event × Rng :=
  pickWeighted g (EVENTS.map (fun e => (e, max 0 (e.weight s))))

/-- `applyEventForYear(state, rng)`: draw at most one event and apply it. -/
def applyEventForYear (s : SimState) (g : Rng) :
    Option String × SimState × Rng :=
  match pickWeightedEvent s g with
  | (none, g1) => (none, s, g1)
  | (some e, g1) => (some e.id, e.apply s, g1)

/-- `resolveLayoffFlag(state)`: a pending layoff cuts income by 45%
(floored) and clears the flag. -/
def resolveLayoffFlag (s : SimState) : SimState :=
  if ¬ s.flags.laidOff then s
  else
    { s with
      income := jsFloor (s.income * (1 - 0.45))
      flags := { s.flags with laidOff := false } }

/-- `updateStressAndBurnout(state)`: burnout drift, stress fragility, and
the burnout spiral. -/
def updateStressAndBurnout (s : SimState) : SimState :=
  let hustleLoad := s.sideHustleLevel * 2 + s.rentalUnits * 2
  let burnout1 := clamp
    (s.burnout + (if 60 < s.stress then 4 else 1) + hustleLoad -
      (if s.stress < 30 then 2 else 0)) 0 100
  let fragility : ℚ :=
    (if s.cash < 3000 then 6 else 0) +
    (if 25000 < s.debt then 6 else 0) +
    (if 0 < s.flags.medicalDebt then 4 else 0)
  let stress1 := clamp
    (s.stress + fragility - (if 0.65 < s.discipline then 2 else 0)) 0 100
  let s1 := { s with burnout := burnout1, stress := stress1 }
  if 80 < s1.burnout then
    { s1 with
      expenses := jsFloor (s1.expenses * 1.04)
      discipline := clamp (s1.discipline - 0.03) 0 1 }
  else s1

/-- The card loop of `stepYear`: apply each pick in order, collecting the
`ok` results. -/
def applyCardsLoop : List String → SimState → Rng →
    List Bool × SimState × Rng
  | [], s, g => ([], s, g)
  | id :: rest, s, g =>
    let res := applyCard s g id
    let tail := applyCardsLoop rest res.2.1 res.2.2
    (res.1 :: tail.1, tail.2.1, tail.2.2)

/-- The snapshot built at the end of `stepYear` (rounded copies). -/
def mkSnapshot (s : SimState) (marketR : ℚ) (picks : List String)
    (results : List Bool) (eventId : Option String) : Snapshot where
  year := s.year
  cash := jsRound s.cash
  invested := jsRound s.invested
  debt := jsRound s.debt
  income := jsRound s.income
  expenses := jsRound s.expenses
  stress := jsRound s.stress
  burnout := jsRound s.burnout
  rentalUnits := s.rentalUnits
  sideHustleLevel := s.sideHustleLevel
  netWorth := jsRound (netWorth s)
  marketReturn := marketR
  chosenCardIds := picks
  cardResults := results
  eventId := eventId
  flags := s.flags

/-- `stepYear(state, rng, chosenCardIds)`: the fixed yearly pipeline
(cooldown tick, up to 2 cards, one event, layoff resolution, cashflow,
auto-invest, debt interest, market return, drift, snapshot). -/
def stepYear (s0 : SimState) (g0 : Rng) (chosenCardIds : List String) :
    SimState × Rng :=
  let sA := tickCooldowns s0
  let picks := chosenCardIds.take 2
  let cardsRes := applyCardsLoop picks sA g0
  let results := cardsRes.1
  let evRes := applyEventForYear cardsRes.2.1 cardsRes.2.2
  let eventId := evRes.1
  let sB := applyAutoInvest (applyYearlyCashflow (resolveLayoffFlag evRes.2.1))
  let sC := applyDebtInterest sB
  let mkt := applyMarketReturn sC evRes.2.2
  let marketR := mkt.1
  let sD := updateStressAndBurnout mkt.2.1
  let snap := mkSnapshot sD marketR picks results eventId
  ({ sD with history := sD.history ++ [snap], year := sD.year + 1 }, mkt.2.2)

/-- Repeated year-stepping with caller-chosen card ids (the interactive
`playYear` usage pattern). -/
def runSteps : SimState → Rng → List (List String) → SimState × Rng
  | s, g, [] => (s, g)
  | s, g, ids :: rest =>
    let res := stepYear s g ids
    runSteps res.1 res.2 rest

/-- A policy chooses the card ids for a year from the state and hand. -/
abbrev Policy := SimState → List Card → List String

/-- The yearly loop of `runSimulation`, with the bankruptcy and
burnout-collapse endings checked between years. -/
def runLoop (policy : Option Policy) : ℕ → SimState → Rng → SimState
  | 0, s, _ => s
  | n + 1, s, g =>
    let dh := drawHand s g {}
    let hand := dh.1
    let chosen :=
      match policy with
      | some p => p s hand
      | none => (hand.take 2).map (·.id)
    let st := stepYear s dh.2 chosen
    let s1 := st.1
    if netWorth s1 < -50000 then s1
    else if 100 ≤ s1.stress ∨ 100 ≤ s1.burnout then s1
    else runLoop policy n s1 st.2

/-- The result record of `runSimulation`. -/
structure RunResult where
  seed : Seed
  final : Option Snapshot
  history : List Snapshot

/-- `runSimulation({seed, years, initialState, policy})`. -/
def runSimulation (seed : Seed) (years : ℕ) (initialState : SimConfig)
    (policy : Option Policy) : RunResult :=
  let g := createRng seed
  let s := initDefaultUnlocks (createInitialState initialState)
  let sFinal := runLoop policy years s g
  { seed := seed
    final := sFinal.history.getLast?
    history := sFinal.history }

/-! THEOREMS -/

theorem le_clamp (v lo hi : ℚ) : lo ≤ clamp v lo hi :=
  le_max_left lo (min hi v)

theorem clamp_le (v lo hi : ℚ) (h : lo ≤ hi) : clamp v lo hi ≤ hi :=
  max_le h (min_le_left hi v)

theorem rngNext_nonneg (g : Rng) : 0 ≤ (rngNext g).1 := by
  unfold rngNext
  positivity

theorem rngNext_lt_one (g : Rng) : (rngNext g).1 < 1 := by
  unfold rngNext
  rw [div_lt_one (by norm_num)]
  have h : mulberryOut (g + 0x6D2B79F5) < 4294967296 := by
    unfold mulberryOut u32
    exact Nat.mod_lt _ (by norm_num)
  exact_mod_cast h

theorem jsFloor_le (q : ℚ) : jsFloor q ≤ q := Int.floor_le q

theorem le_jsFloor_of_le (n : ℤ) (q : ℚ) (h : (n : ℚ) ≤ q) :
    (n : ℚ) ≤ jsFloor q := by
  unfold jsFloor
  exact_mod_cast Int.le_floor.mpr h

theorem jsFloor_nonneg (q : ℚ) (h : 0 ≤ q) : 0 ≤ jsFloor q := by
  simpa using le_jsFloor_of_le 0 q (by exact_mod_cast h)

/-- The bounded-gauge invariant of the spec: stress/burnout in 0..100,
risk/discipline in 0..1. -/
def GaugesOk (s : SimState) : Prop :=
  0 ≤ s.stress ∧ s.stress ≤ 100 ∧ 0 ≤ s.burnout ∧ s.burnout ≤ 100 ∧
  0 ≤ s.risk ∧ s.risk ≤ 1 ∧ 0 ≤ s.discipline ∧ s.discipline ≤ 1

/-- The risk/discipline part of the gauge invariant. -/
def RiskDiscOk (s : SimState) : Prop :=
  0 ≤ s.risk ∧ s.risk ≤ 1 ∧ 0 ≤ s.discipline ∧ s.discipline ≤ 1

/-- An optional config value, when supplied, lies in the given range. -/
def OptInRange (o : Option ℚ) (lo hi : ℚ) : Prop :=
  ∀ v, o = some v → lo ≤ v ∧ v ≤ hi

/-- The gauge fields of a config are in their documented ranges. -/
def CfgInRange (cfg : SimConfig) : Prop :=
  OptInRange cfg.stress 0 100 ∧ OptInRange cfg.burnout 0 100 ∧
  OptInRange cfg.risk 0 1 ∧ OptInRange cfg.discipline 0 1

theorem pickLoop_mem {α : Type} (v : ℚ) (l : List (α × ℚ)) (x : α)
    (h : pickLoop v l = some x) : x ∈ l.map Prod.fst := by
  induction l generalizing v with
  | nil => simp [pickLoop] at h
  | cons y ys ih =>
    simp only [pickLoop] at h
    split at h
    · simp only [Option.some.injEq] at h
      simp [← h]
    · cases ys with
      | nil =>
        simp only [Option.some.injEq] at h
        simp [← h]
      | cons z zs =>
        have := ih (v - y.2) h
        simp only [List.map_cons, List.mem_cons] at this ⊢
        exact Or.inr this

theorem pickWeighted_mem {α : Type} (g : Rng) (items : List (α × ℚ)) (x : α)
    (h : (pickWeighted g items).1 = some x) :
    x ∈ (items.filter (fun y => decide (0 < y.2))).map Prod.fst := by
  simp only [pickWeighted] at h
  split at h
  · simp at h
  · exact pickLoop_mem _ _ _ h

theorem mem_of_weighted_pool {α : Type} (f : α → ℚ) (l : List α) (x : α)
    (h : x ∈ ((l.map (fun a => (a, f a))).filter
          (fun y => decide (0 < y.2))).map Prod.fst) :
    x ∈ l := by
  obtain ⟨p, hp, hpx⟩ := List.mem_map.mp h
  have hmem := (List.mem_filter.mp hp).1
  obtain ⟨a, ha, hap⟩ := List.mem_map.mp hmem
  subst hpx
  rw [← hap]
  exact ha

theorem card_apply_basic (c : Card) (hc : c ∈ CARDS) (s : SimState) (g : Rng) :
    ((c.apply s g).1 = false → (c.apply s g).2.1 = s) ∧
    (c.apply s g).2.1.runMeta = s.runMeta := by
  simp only [CARDS, List.mem_cons, List.not_mem_nil, or_false] at hc
  rcases hc with rfl|rfl|rfl|rfl|rfl|rfl|rfl|rfl|rfl|rfl|rfl|rfl|rfl|rfl|rfl|rfl|rfl|rfl <;>
    simp only [indexInvestingCard, payDownDebtCard, buildEmergencyFundCard,
      reduceLifestyleCard, negotiateBillsCard, skillSprintCard, sideHustleCard,
      automateSavingsCard, overtimePushCard, doNothingCard, careerMoveCard,
      debtRefiCard, startBusinessCard, buyRentalCard, houseHackCard,
      insuranceUpgradeCard, panicSellCard, windfallOpportunityCard] <;>
    refine ⟨?_, ?_⟩ <;>
    first
      | (split <;> intro h <;> first | rfl | simp at h)
      | (intro h; simp at h)
      | ((try split) <;> first | rfl | trivial)

set_option maxHeartbeats 1000000 in
theorem card_apply_rd (c : Card) (hc : c ∈ CARDS) (s : SimState) (g : Rng)
    (h : RiskDiscOk s) : RiskDiscOk (c.apply s g).2.1 := by
  simp only [CARDS, List.mem_cons, List.not_mem_nil, or_false] at hc
  rcases hc with rfl|rfl|rfl|rfl|rfl|rfl|rfl|rfl|rfl|rfl|rfl|rfl|rfl|rfl|rfl|rfl|rfl|rfl <;>
    simp only [indexInvestingCard, payDownDebtCard, buildEmergencyFundCard,
      reduceLifestyleCard, negotiateBillsCard, skillSprintCard, sideHustleCard,
      automateSavingsCard, overtimePushCard, doNothingCard, careerMoveCard,
      debtRefiCard, startBusinessCard, buyRentalCard, houseHackCard,
      insuranceUpgradeCard, panicSellCard, windfallOpportunityCard] <;>
    (try split_ifs) <;>
    first
      | exact h
      | (refine ⟨?_, ?_, ?_, ?_⟩ <;>
          first
            | exact h.1
            | exact h.2.1
            | exact h.2.2.1
            | exact h.2.2.2
            | exact le_clamp _ _ _
            | exact clamp_le _ _ _ (by norm_num))

set_option maxHeartbeats 1000000 in
theorem card_apply_debt (c : Card) (hc : c ∈ CARDS) (s : SimState) (g : Rng)
    (h : 0 ≤ s.debt) : 0 ≤ (c.apply s g).2.1.debt := by
  simp only [CARDS, List.mem_cons, List.not_mem_nil, or_false] at hc
  rcases hc with rfl|rfl|rfl|rfl|rfl|rfl|rfl|rfl|rfl|rfl|rfl|rfl|rfl|rfl|rfl|rfl|rfl|rfl <;>
    simp only [indexInvestingCard, payDownDebtCard, buildEmergencyFundCard,
      reduceLifestyleCard, negotiateBillsCard, skillSprintCard, sideHustleCard,
      automateSavingsCard, overtimePushCard, doNothingCard, careerMoveCard,
      debtRefiCard, startBusinessCard, buyRentalCard, houseHackCard,
      insuranceUpgradeCard, panicSellCard, windfallOpportunityCard] <;>
    (try split_ifs) <;>
    first
      | exact h
      | exact sub_nonneg.mpr (min_le_right _ _)
      | exact add_nonneg h (jsFloor_nonneg _
          (by linarith [rngNext_nonneg g, rngNext_nonneg (rngNext g).2]))
      | (rename_i hcond
         exact add_nonneg h (mul_nonneg (by linarith [not_le.mp hcond])
           (by norm_num)))

set_option maxHeartbeats 1000000 in
theorem event_apply_rd (e : Event) (he : e ∈ EVENTS) (s : SimState)
    (h : RiskDiscOk s) : RiskDiscOk (e.apply s) := by
  simp only [EVENTS, List.mem_cons, List.not_mem_nil, or_false] at he
  rcases he with rfl|rfl|rfl|rfl|rfl|rfl <;>
    simp only [marketCrashEvent, medicalBillEvent, layoffEvent,
      boringYearEvent, luckyBreakEvent, rentalRepairEvent] <;>
    (try split_ifs) <;>
    exact h

set_option maxHeartbeats 1000000 in
theorem event_apply_debt (e : Event) (he : e ∈ EVENTS) (s : SimState)
    (h : 0 ≤ s.debt) : 0 ≤ (e.apply s).debt := by
  simp only [EVENTS, List.mem_cons, List.not_mem_nil, or_false] at he
  rcases he with rfl|rfl|rfl|rfl|rfl|rfl <;>
    simp only [marketCrashEvent, medicalBillEvent, layoffEvent,
      boringYearEvent, luckyBreakEvent, rentalRepairEvent] <;>
    (try split_ifs) <;>
    first
      | exact h
      | (rename_i hcond
         exact add_nonneg h (mul_nonneg (by linarith [not_le.mp hcond])
           (by norm_num)))

theorem event_apply_runMeta (e : Event) (he : e ∈ EVENTS) (s : SimState) :
    (e.apply s).runMeta = s.runMeta := by
  simp only [EVENTS, List.mem_cons, List.not_mem_nil, or_false] at he
  rcases he with rfl|rfl|rfl|rfl|rfl|rfl <;>
    simp only [marketCrashEvent, medicalBillEvent, layoffEvent,
      boringYearEvent, luckyBreakEvent, rentalRepairEvent] <;>
    (try split_ifs) <;>
    rfl

theorem applyShockBuffer_nonneg (s : SimState) (raw : ℚ) (h : 0 ≤ raw) :
    0 ≤ applyShockBuffer s raw := by
  simp only [applyShockBuffer]
  split
  · exact h
  · exact le_max_left 0 _

theorem applyYearlyCashflow_cash (s : SimState) :
    0 ≤ (applyYearlyCashflow s).cash := by
  simp only [applyYearlyCashflow]
  split
  · exact le_refl 0
  · rename_i hcond
    exact not_lt.mp hcond

theorem applyYearlyCashflow_debt (s : SimState) (h : 0 ≤ s.debt) :
    0 ≤ (applyYearlyCashflow s).debt := by
  simp only [applyYearlyCashflow]
  split
  · rename_i hcond
    exact add_nonneg h (mul_nonneg
      (applyShockBuffer_nonneg s _ (by linarith)) (by norm_num))
  · exact h

theorem applyYearlyCashflow_rd (s : SimState) (h : RiskDiscOk s) :
    RiskDiscOk (applyYearlyCashflow s) := by
  simp only [applyYearlyCashflow]
  split <;> exact h

theorem applyYearlyCashflow_runMeta (s : SimState) :
    (applyYearlyCashflow s).runMeta = s.runMeta := by
  simp only [applyYearlyCashflow]
  split <;> rfl

theorem applyAutoInvest_cash (s : SimState) (h : 0 ≤ s.cash) :
    0 ≤ (applyAutoInvest s).cash := by
  simp only [applyAutoInvest]
  split_ifs
  · exact h
  · exact sub_nonneg.mpr (min_le_left _ _)
  · exact h

theorem applyAutoInvest_debt (s : SimState) (h : 0 ≤ s.debt) :
    0 ≤ (applyAutoInvest s).debt := by
  simp only [applyAutoInvest]
  split_ifs <;> exact h

theorem applyAutoInvest_rd (s : SimState) (h : RiskDiscOk s) :
    RiskDiscOk (applyAutoInvest s) := by
  simp only [applyAutoInvest]
  split_ifs
  · exact h
  · exact ⟨h.1, h.2.1, le_clamp _ _ _, clamp_le _ _ _ (by norm_num)⟩
  · exact h

theorem applyAutoInvest_runMeta (s : SimState) :
    (applyAutoInvest s).runMeta = s.runMeta := by
  simp only [applyAutoInvest]
  split_ifs <;> rfl

theorem clamp_nonneg (v lo hi : ℚ) (h : 0 ≤ lo) : 0 ≤ clamp v lo hi :=
  le_trans h (le_clamp v lo hi)

theorem applyDebtInterest_debt (s : SimState) (h : 0 ≤ s.debt) :
    0 ≤ (applyDebtInterest s).debt := by
  simp only [applyDebtInterest]
  exact add_nonneg h (mul_nonneg h (clamp_nonneg _ _ _ (by norm_num)))

theorem applyDebtInterest_rd (s : SimState) (h : RiskDiscOk s) :
    RiskDiscOk (applyDebtInterest s) := h

theorem applyMarketReturn_rd (s : SimState) (g : Rng) (h : RiskDiscOk s) :
    RiskDiscOk (applyMarketReturn s g).2.1 := h

theorem tickCooldowns_rd (s : SimState) (h : RiskDiscOk s) :
    RiskDiscOk (tickCooldowns s) := h

theorem resolveLayoffFlag_rd (s : SimState) (h : RiskDiscOk s) :
    RiskDiscOk (resolveLayoffFlag s) := by
  simp only [resolveLayoffFlag]
  split <;> exact h

theorem resolveLayoffFlag_cash (s : SimState) :
    (resolveLayoffFlag s).cash = s.cash := by
  simp only [resolveLayoffFlag]
  split <;> rfl

theorem resolveLayoffFlag_debt (s : SimState) (h : 0 ≤ s.debt) :
    0 ≤ (resolveLayoffFlag s).debt := by
  simp only [resolveLayoffFlag]
  split <;> exact h

theorem resolveLayoffFlag_runMeta (s : SimState) :
    (resolveLayoffFlag s).runMeta = s.runMeta := by
  simp only [resolveLayoffFlag]
  split <;> rfl

theorem updateStressAndBurnout_bounds (s : SimState) :
    0 ≤ (updateStressAndBurnout s).stress ∧
    (updateStressAndBurnout s).stress ≤ 100 ∧
    0 ≤ (updateStressAndBurnout s).burnout ∧
    (updateStressAndBurnout s).burnout ≤ 100 := by
  simp only [updateStressAndBurnout]
  split_ifs <;>
    exact ⟨le_clamp _ _ _, clamp_le _ _ _ (by norm_num),
      le_clamp _ _ _, clamp_le _ _ _ (by norm_num)⟩

theorem updateStressAndBurnout_rd (s : SimState) (h : RiskDiscOk s) :
    RiskDiscOk (updateStressAndBurnout s) := by
  simp only [updateStressAndBurnout]
  split_ifs <;>
    first
      | exact h
      | exact ⟨h.1, h.2.1, le_clamp _ _ _, clamp_le _ _ _ (by norm_num)⟩

theorem updateStressAndBurnout_cash (s : SimState) (h : 0 ≤ s.cash) :
    0 ≤ (updateStressAndBurnout s).cash := by
  simp only [updateStressAndBurnout]
  split_ifs <;> exact h

theorem updateStressAndBurnout_debt (s : SimState) (h : 0 ≤ s.debt) :
    0 ≤ (updateStressAndBurnout s).debt := by
  simp only [updateStressAndBurnout]
  split_ifs <;> exact h

theorem updateStressAndBurnout_runMeta (s : SimState) :
    (updateStressAndBurnout s).runMeta = s.runMeta := by
  simp only [updateStressAndBurnout]
  split_ifs <;> rfl

theorem applyEventForYear_rd (s : SimState) (g : Rng) (h : RiskDiscOk s) :
    RiskDiscOk (applyEventForYear s g).2.1 := by
  unfold applyEventForYear
  rcases hpe : pickWeightedEvent s g with ⟨pe1, g1⟩
  cases pe1 with
  | none => exact h
  | some e =>
    have hfst : (pickWeightedEvent s g).1 = some e := by rw [hpe]
    have he : e ∈ EVENTS := by
      unfold pickWeightedEvent at hfst
      exact mem_of_weighted_pool _ _ _ (pickWeighted_mem _ _ _ hfst)
    exact event_apply_rd e he s h

theorem applyEventForYear_debt (s : SimState) (g : Rng) (h : 0 ≤ s.debt) :
    0 ≤ (applyEventForYear s g).2.1.debt := by
  unfold applyEventForYear
  rcases hpe : pickWeightedEvent s g with ⟨pe1, g1⟩
  cases pe1 with
  | none => exact h
  | some e =>
    have hfst : (pickWeightedEvent s g).1 = some e := by rw [hpe]
    have he : e ∈ EVENTS := by
      unfold pickWeightedEvent at hfst
      exact mem_of_weighted_pool _ _ _ (pickWeighted_mem _ _ _ hfst)
    exact event_apply_debt e he s h

theorem applyEventForYear_runMeta (s : SimState) (g : Rng) :
    (applyEventForYear s g).2.1.runMeta = s.runMeta := by
  unfold applyEventForYear
  rcases hpe : pickWeightedEvent s g with ⟨pe1, g1⟩
  cases pe1 with
  | none => rfl
  | some e =>
    have hfst : (pickWeightedEvent s g).1 = some e := by rw [hpe]
    have he : e ∈ EVENTS := by
      unfold pickWeightedEvent at hfst
      exact mem_of_weighted_pool _ _ _ (pickWeighted_mem _ _ _ hfst)
    exact event_apply_runMeta e he s

theorem applyCard_rd (s : SimState) (g : Rng) (cardId : String)
    (h : RiskDiscOk s) : RiskDiscOk (applyCard s g cardId).2.1 := by
  rcases hf : CARDS.find? (fun c => c.id = cardId) with _ | card
  · simp only [applyCard, hf]
    exact h
  · have hmem : card ∈ CARDS := List.mem_of_find?_eq_some hf
    have hres := card_apply_rd card hmem s g h
    simp only [applyCard, hf]
    split
    · exact h
    · split
      · split <;> split <;> exact hres
      · exact hres

theorem applyCard_debt (s : SimState) (g : Rng) (cardId : String)
    (h : 0 ≤ s.debt) : 0 ≤ (applyCard s g cardId).2.1.debt := by
  rcases hf : CARDS.find? (fun c => c.id = cardId) with _ | card
  · simp only [applyCard, hf]
    exact h
  · have hmem : card ∈ CARDS := List.mem_of_find?_eq_some hf
    have hres := card_apply_debt card hmem s g h
    simp only [applyCard, hf]
    split
    · exact h
    · split
      · split <;> split <;> exact hres
      · exact hres

theorem applyCardsLoop_rd (ids : List String) (s : SimState) (g : Rng)
    (h : RiskDiscOk s) : RiskDiscOk (applyCardsLoop ids s g).2.1 := by
  induction ids generalizing s g with
  | nil => exact h
  | cons id rest ih => exact ih _ _ (applyCard_rd s g id h)

theorem applyCardsLoop_debt (ids : List String) (s : SimState) (g : Rng)
    (h : 0 ≤ s.debt) : 0 ≤ (applyCardsLoop ids s g).2.1.debt := by
  induction ids generalizing s g with
  | nil => exact h
  | cons id rest ih => exact ih _ _ (applyCard_debt s g id h)

theorem stepYear_rd (s : SimState) (g : Rng) (ids : List String)
    (h : RiskDiscOk s) : RiskDiscOk (stepYear s g ids).1 := by
  unfold stepYear
  exact updateStressAndBurnout_rd _
    (applyMarketReturn_rd _ _
      (applyDebtInterest_rd _
        (applyAutoInvest_rd _
          (applyYearlyCashflow_rd _
            (resolveLayoffFlag_rd _
              (applyEventForYear_rd _ _
                (applyCardsLoop_rd _ _ _ (tickCooldowns_rd _ h))))))))

theorem stepYear_cash_nonneg (s : SimState) (g : Rng) (ids : List String) :
    0 ≤ (stepYear s g ids).1.cash := by
  unfold stepYear
  exact updateStressAndBurnout_cash _
    (applyAutoInvest_cash _ (applyYearlyCashflow_cash _))

theorem stepYear_debt_nonneg (s : SimState) (g : Rng) (ids : List String)
    (h : 0 ≤ s.debt) : 0 ≤ (stepYear s g ids).1.debt := by
  unfold stepYear
  exact updateStressAndBurnout_debt _
    (applyDebtInterest_debt _
      (applyAutoInvest_debt _
        (applyYearlyCashflow_debt _
          (resolveLayoffFlag_debt _
            (applyEventForYear_debt _ _
              (applyCardsLoop_debt _ _ _ h))))))

theorem stepYear_gauges (s : SimState) (g : Rng) (ids : List String)
    (h : RiskDiscOk s) : GaugesOk (stepYear s g ids).1 := by
  have hrd := stepYear_rd s g ids h
  have hb : 0 ≤ (stepYear s g ids).1.stress ∧
      (stepYear s g ids).1.stress ≤ 100 ∧
      0 ≤ (stepYear s g ids).1.burnout ∧
      (stepYear s g ids).1.burnout ≤ 100 := by
    unfold stepYear
    exact updateStressAndBurnout_bounds _
  exact ⟨hb.1, hb.2.1, hb.2.2.1, hb.2.2.2,
    hrd.1, hrd.2.1, hrd.2.2.1, hrd.2.2.2⟩

theorem optInRange_none (lo hi : ℚ) : OptInRange none lo hi :=
  fun _ h => nomatch h

theorem createInitialState_gauges (cfg : SimConfig) (h : CfgInRange cfg) :
    GaugesOk (createInitialState cfg) := by
  obtain ⟨h1, h2, h3, h4⟩ := h
  have hs : 0 ≤ cfg.stress.getD 25 ∧ cfg.stress.getD 25 ≤ 100 := by
    cases hv : cfg.stress with
    | none => norm_num
    | some v => simpa using h1 v hv
  have hb : 0 ≤ cfg.burnout.getD 0 ∧ cfg.burnout.getD 0 ≤ 100 := by
    cases hv : cfg.burnout with
    | none => norm_num
    | some v => simpa using h2 v hv
  have hr : 0 ≤ cfg.risk.getD 0.45 ∧ cfg.risk.getD 0.45 ≤ 1 := by
    cases hv : cfg.risk with
    | none => norm_num
    | some v => simpa using h3 v hv
  have hd : 0 ≤ cfg.discipline.getD 0.50 ∧ cfg.discipline.getD 0.50 ≤ 1 := by
    cases hv : cfg.discipline with
    | none => norm_num
    | some v => simpa using h4 v hv
  exact ⟨hs.1, hs.2, hb.1, hb.2, hr.1, hr.2, hd.1, hd.2⟩

theorem runSteps_gauges (steps : List (List String)) (s : SimState) (g : Rng)
    (h : GaugesOk s) : GaugesOk (runSteps s g steps).1 := by
  induction steps generalizing s g with
  | nil => exact h
  | cons ids rest ih =>
    exact ih _ _ (stepYear_gauges s g ids
      ⟨h.2.2.2.2.1, h.2.2.2.2.2.1, h.2.2.2.2.2.2.1, h.2.2.2.2.2.2.2⟩)

/-- C2: starting from `createInitialState` with in-range initial values
(stress/burnout in 0..100, risk/discipline in 0..1), after every `stepYear`
call — i.e. after any number of year steps with any chosen card-id lists —
the state still satisfies `0 ≤ stress ≤ 100`, `0 ≤ burnout ≤ 100`,
`0 ≤ risk ≤ 1`, `0 ≤ discipline ≤ 1`: every mutation of these gauges in
the engine goes through `clamp`, and the final drift stage re-clamps
stress and burnout unconditionally. -/
theorem gauge_clamping_invariant (cfg : SimConfig) (g : Rng)
    (steps : List (List String)) (hcfg : CfgInRange cfg) :
    GaugesOk (runSteps (createInitialState cfg) g steps).1 :=
  runSteps_gauges steps _ g (createInitialState_gauges cfg hcfg)

/-- C2 witness: one default-config year step keeps all gauges in range. -/
theorem gauge_clamping_invariant_witness :
    GaugesOk (runSteps (createInitialState {}) 0 [[]]).1 :=
  gauge_clamping_invariant {} 0 [[]]
    ⟨optInRange_none 0 100, optInRange_none 0 100,
     optInRange_none 0 1, optInRange_none 0 1⟩

/-- C10: if `cash ≥ 0` and `debt ≥ 0` hold at the start of `stepYear`, they
hold again at its end: every effect either checks available cash before
subtracting or zeroes cash and rolls the remainder into debt (the yearly
cashflow stage zeroes any negative balance), and debt is only reduced by
amounts capped at the current debt (`pay_down_debt`), only grown otherwise
(non-negative additions and interest at a non-negative APR). -/
theorem stepYear_cash_debt_nonneg (s : SimState) (g : Rng)
    (ids : List String) (_hc : 0 ≤ s.cash) (hd : 0 ≤ s.debt) :
    0 ≤ (stepYear s g ids).1.cash ∧ 0 ≤ (stepYear s g ids).1.debt :=
  ⟨stepYear_cash_nonneg s g ids, stepYear_debt_nonneg s g ids hd⟩

/-- C10 witness: the non-negativity theorem applied to the default initial
state with one card pick. -/
theorem stepYear_cash_debt_nonneg_witness :
    0 ≤ (stepYear (createInitialState {}) 0 ["pay_down_debt"]).1.cash ∧
    0 ≤ (stepYear (createInitialState {}) 0 ["pay_down_debt"]).1.debt :=
  stepYear_cash_debt_nonneg (createInitialState {}) 0 ["pay_down_debt"]
    (by decide) (by decide)

theorem applyCard_unknown (s : SimState) (g : Rng) (cardId : String)
    (hf : CARDS.find? (fun x => x.id = cardId) = none) :
    applyCard s g cardId = (false, s, g) := by
  simp only [applyCard, hf]

theorem applyCard_unplayable (s : SimState) (g : Rng) (cardId : String)
    (card : Card) (hf : CARDS.find? (fun x => x.id = cardId) = some card)
    (hp : isCardPlayable s card = false) :
    applyCard s g cardId = (false, s, g) := by
  simp only [applyCard, hf]
  rw [if_pos]
  simp [hp]

theorem applyCard_declined (s : SimState) (g : Rng) (cardId : String)
    (card : Card) (hf : CARDS.find? (fun x => x.id = cardId) = some card)
    (hok : (card.apply s g).1 = false) :
    applyCard s g cardId = (false, s, g) ∨
    applyCard s g cardId =
      (false, (card.apply s g).2.1, (card.apply s g).2.2) := by
  simp only [applyCard, hf]
  split
  · exact Or.inl rfl
  · rw [hok]
    simp

theorem applyCard_success_shape (s : SimState) (g : Rng) (cardId : String)
    (card : Card) (hf : CARDS.find? (fun x => x.id = cardId) = some card)
    (hp : isCardPlayable s card = true)
    (hok : (card.apply s g).1 = true) :
    applyCard s g cardId =
      (true,
        (if 0 < card.cooldownYears then
          { (if card.exhaust then
              { (card.apply s g).2.1 with runMeta := { (card.apply s g).2.1.runMeta with
                  exhausted := setAdd (card.apply s g).2.1.runMeta.exhausted card.id } }
            else (card.apply s g).2.1) with
            runMeta := { (if card.exhaust then
              { (card.apply s g).2.1 with runMeta := { (card.apply s g).2.1.runMeta with
                  exhausted := setAdd (card.apply s g).2.1.runMeta.exhausted card.id } }
            else (card.apply s g).2.1).runMeta with
              cooldowns := fun j =>
                if j = card.id then some card.cooldownYears
                else (if card.exhaust then
              { (card.apply s g).2.1 with runMeta := { (card.apply s g).2.1.runMeta with
                  exhausted := setAdd (card.apply s g).2.1.runMeta.exhausted card.id } }
            else (card.apply s g).2.1).runMeta.cooldowns j } }
         else (if card.exhaust then
              { (card.apply s g).2.1 with runMeta := { (card.apply s g).2.1.runMeta with
                  exhausted := setAdd (card.apply s g).2.1.runMeta.exhausted card.id } }
            else (card.apply s g).2.1)),
        (card.apply s g).2.2) := by
  simp only [applyCard, hf]
  rw [if_neg (fun hC => hC hp)]
  rw [hok]
  simp

/-- C8: `applyCard` failure atomicity — whenever the result is `ok:false`
(unknown card, not playable, or effect self-decline) the state is returned
unchanged (all financial and gauge fields, and the run ledger, are those of
the input state), and exhaust/cooldown marking happens exactly on
`ok:true`: on success an exhaust-flagged card is added to the exhausted
set, a card with positive `cooldownYears` gets that cooldown entry, and a
card without the respective marker leaves that ledger component
unchanged. -/
theorem applyCard_failure_atomic (s : SimState) (g : Rng) (cardId : String) :
    ((applyCard s g cardId).1 = false → (applyCard s g cardId).2.1 = s) ∧
    (∀ c, CARDS.find? (fun x => x.id = cardId) = some c →
      (applyCard s g cardId).1 = true →
      ((c.exhaust = true →
          (applyCard s g cardId).2.1.runMeta.exhausted =
            setAdd s.runMeta.exhausted c.id) ∧
       (c.exhaust = false →
          (applyCard s g cardId).2.1.runMeta.exhausted =
            s.runMeta.exhausted) ∧
       (0 < c.cooldownYears →
          (applyCard s g cardId).2.1.runMeta.cooldowns c.id =
            some c.cooldownYears) ∧
       (c.cooldownYears = 0 →
          (applyCard s g cardId).2.1.runMeta.cooldowns =
            s.runMeta.cooldowns))) := by
  rcases hf : CARDS.find? (fun x => x.id = cardId) with _ | card
  · refine ⟨fun _ => ?_, fun c hc => ?_⟩
    · rw [applyCard_unknown s g cardId hf]
    · rw [hf] at hc
      exact nomatch hc
  · have hmem := List.mem_of_find?_eq_some hf
    have hbasic := card_apply_basic card hmem s g
    cases hp : isCardPlayable s card with
    | false =>
      have heq := applyCard_unplayable s g cardId card hf hp
      refine ⟨fun _ => by rw [heq], fun c hc hsucc => ?_⟩
      rw [heq] at hsucc
      exact absurd hsucc (by simp)
    | true =>
      cases hok : (card.apply s g).1 with
      | false =>
        refine ⟨fun _ => ?_, fun c hc hsucc => ?_⟩
        · rcases applyCard_declined s g cardId card hf hok with heq | heq <;>
            (rw [heq]
             try exact hbasic.1 hok)
        · rcases applyCard_declined s g cardId card hf hok with heq | heq <;>
            rw [heq] at hsucc <;> exact absurd hsucc (by simp)
      | true =>
        have heq := applyCard_success_shape s g cardId card hf hp hok
        refine ⟨fun hfail => ?_, fun c hc hsucc => ?_⟩
        · rw [heq] at hfail
          exact absurd hfail (by simp)
        · rw [hf] at hc
          injection hc with hcc
          subst hcc
          rw [heq]
          refine ⟨fun hex => ?_, fun hex => ?_, fun hcd => ?_, fun hcd => ?_⟩
          · simp only [hex, if_true]
            split <;> simp [hbasic.2]
          · simp only [hex]
            split <;> simp [hbasic.2]
          · simp only [if_pos hcd]
            simp
          · have hncd : ¬ 0 < card.cooldownYears := by omega
            simp only [if_neg hncd]
            split <;> simp [hbasic.2]

/-- C8 witness: the atomicity theorem applied to a concrete failing
application — `side_hustle` on a state with too little cash declines and
leaves the state unchanged. -/
theorem applyCard_failure_atomic_witness :
    (applyCard { createInitialState {} with cash := 0 } 0 "no_such_card").2.1 =
      { createInitialState {} with cash := 0 } :=
  (applyCard_failure_atomic { createInitialState {} with cash := 0 } 0
    "no_such_card").1 (by decide)

theorem setAdd_contains_self (l : List String) (x : String) :
    (setAdd l x).contains x = true := by
  unfold setAdd
  split
  · assumption
  · simp

theorem setAdd_contains_mono (l : List String) (x y : String)
    (h : l.contains y = true) : (setAdd l x).contains y = true := by
  unfold setAdd
  split
  · exact h
  · have hy : y ∈ l := List.mem_of_elem_eq_true h
    exact List.elem_eq_true_of_mem (by simp [hy])

theorem applyCard_exhausted_mono (s : SimState) (g : Rng) (cardId : String)
    (x : String) (h : s.runMeta.exhausted.contains x = true) :
    (applyCard s g cardId).2.1.runMeta.exhausted.contains x = true := by
  rcases hf : CARDS.find? (fun c => c.id = cardId) with _ | card
  · rw [applyCard_unknown s g cardId hf]
    exact h
  · have hmem := List.mem_of_find?_eq_some hf
    have hbasic := card_apply_basic card hmem s g
    cases hp : isCardPlayable s card with
    | false =>
      rw [applyCard_unplayable s g cardId card hf hp]
      exact h
    | true =>
      cases hok : (card.apply s g).1 with
      | false =>
        rcases applyCard_declined s g cardId card hf hok with heq | heq <;>
          rw [heq]
        · exact h
        · rw [hbasic.2]
          exact h
      | true =>
        rw [applyCard_success_shape s g cardId card hf hp hok]
        split <;> split <;>
          first
            | exact setAdd_contains_mono _ _ _ (by rw [hbasic.2]; exact h)
            | (rw [hbasic.2]; exact h)

theorem applyCardsLoop_exhausted_mono (ids : List String) (s : SimState)
    (g : Rng) (x : String) (h : s.runMeta.exhausted.contains x = true) :
    (applyCardsLoop ids s g).2.1.runMeta.exhausted.contains x = true := by
  induction ids generalizing s g with
  | nil => exact h
  | cons id rest ih => exact ih _ _ (applyCard_exhausted_mono s g id x h)

theorem resolveLayoffFlag_exhausted (s : SimState) (x : String)
    (h : s.runMeta.exhausted.contains x = true) :
    (resolveLayoffFlag s).runMeta.exhausted.contains x = true := by
  rw [resolveLayoffFlag_runMeta]
  exact h

theorem applyYearlyCashflow_exhausted (s : SimState) (x : String)
    (h : s.runMeta.exhausted.contains x = true) :
    (applyYearlyCashflow s).runMeta.exhausted.contains x = true := by
  rw [applyYearlyCashflow_runMeta]
  exact h

theorem applyAutoInvest_exhausted (s : SimState) (x : String)
    (h : s.runMeta.exhausted.contains x = true) :
    (applyAutoInvest s).runMeta.exhausted.contains x = true := by
  rw [applyAutoInvest_runMeta]
  exact h

theorem applyEventForYear_exhausted (s : SimState) (g : Rng) (x : String)
    (h : s.runMeta.exhausted.contains x = true) :
    (applyEventForYear s g).2.1.runMeta.exhausted.contains x = true := by
  rw [applyEventForYear_runMeta]
  exact h

theorem updateStressAndBurnout_exhausted (s : SimState) (x : String)
    (h : s.runMeta.exhausted.contains x = true) :
    (updateStressAndBurnout s).runMeta.exhausted.contains x = true := by
  rw [updateStressAndBurnout_runMeta]
  exact h

theorem stepYear_exhausted_mono (s : SimState) (g : Rng) (ids : List String)
    (x : String) (h : s.runMeta.exhausted.contains x = true) :
    (stepYear s g ids).1.runMeta.exhausted.contains x = true := by
  unfold stepYear
  exact updateStressAndBurnout_exhausted _ _
    (applyAutoInvest_exhausted _ _
      (applyYearlyCashflow_exhausted _ _
        (resolveLayoffFlag_exhausted _ _
          (applyEventForYear_exhausted _ _ _
            (applyCardsLoop_exhausted_mono _ _ _ _ h)))))

theorem tickN_cooldown (s : SimState) (id : String) (N : ℕ)
    (h : s.runMeta.cooldowns id = some N) :
    ∀ k, k < N →
      (tickCooldowns^[k] s).runMeta.cooldowns id = some (N - k) := by
  intro k
  induction k generalizing s N with
  | zero =>
    intro _
    simpa using h
  | succ k ih =>
    intro hk
    have hstep : (tickCooldowns s).runMeta.cooldowns id = some (N - 1) := by
      show (match s.runMeta.cooldowns id with
        | none => none
        | some y => if y ≤ 1 then none else some (y - 1)) = some (N - 1)
      rw [h]
      have : ¬ N ≤ 1 := by omega
      simp [this]
    have hiter : tickCooldowns^[k + 1] s = tickCooldowns^[k] (tickCooldowns s) := by
      rw [Function.iterate_succ]
      rfl
    rw [hiter]
    have := ih (tickCooldowns s) (N - 1) hstep (by omega)
    rw [this]
    congr 1
    omega

theorem tickN_cooldown_cleared (s : SimState) (id : String) (N : ℕ)
    (h : s.runMeta.cooldowns id = some N) (hN : 0 < N) :
    (tickCooldowns^[N] s).runMeta.cooldowns id = none := by
  obtain ⟨M, rfl⟩ : ∃ M, N = M + 1 := ⟨N - 1, by omega⟩
  have hlast : (tickCooldowns^[M] s).runMeta.cooldowns id = some 1 := by
    have := tickN_cooldown s id (M + 1) h M (by omega)
    simpa using this
  have hiter : tickCooldowns^[M + 1] s = tickCooldowns (tickCooldowns^[M] s) := by
    rw [Function.iterate_succ']
    rfl
  rw [hiter]
  show (match (tickCooldowns^[M] s).runMeta.cooldowns id with
    | none => none
    | some y => if y ≤ 1 then none else some (y - 1)) = none
  rw [hlast]
  simp

theorem not_playable_of_cooldown (t : SimState) (c : Card)
    (h : (t.runMeta.cooldowns c.id).isSome = true) :
    isCardPlayable t c = false := by
  unfold isCardPlayable
  simp [h]

theorem not_playable_of_exhausted (t : SimState) (c : Card)
    (h : t.runMeta.exhausted.contains c.id = true) :
    isCardPlayable t c = false := by
  have h2 : c.id ∈ t.runMeta.exhausted := List.mem_of_elem_eq_true h
  unfold isCardPlayable
  simp [h2]

theorem applyCard_fails_of_exhausted (t : SimState) (g : Rng)
    (cardId : String) (c : Card)
    (hf : CARDS.find? (fun x => x.id = cardId) = some c)
    (h : t.runMeta.exhausted.contains cardId = true) :
    (applyCard t g cardId).1 = false := by
  have hpa := List.find?_some hf
  have hid : c.id = cardId := of_decide_eq_true hpa
  rw [applyCard_unplayable t g cardId c hf
    (not_playable_of_exhausted t c (by rw [hid]; exact h))]

/-- C4: exhaust and cooldown enforcement.  After a successful `applyCard`
of a card found under `cardId`: if the card is exhaust-flagged, its id is
in the exhausted set, any later `applyCard` of that id on a state carrying
that mark fails (so the card succeeds at most once per run) while the mark
itself survives both `applyCard` and whole `stepYear` years; if the card
has `cooldownYears = N > 0`, the cooldown entry is present after each of
the first `N-1` ticks (and `isCardPlayable` is false while the entry is
present), and exactly after `tickCooldowns` has run `N` times the entry is
gone — with `tickCooldowns` running once per year at the start of
`stepYear`. -/
theorem exhaust_cooldown_enforcement (s : SimState) (g : Rng)
    (cardId : String) (c : Card)
    (hf : CARDS.find? (fun x => x.id = cardId) = some c)
    (hok : (applyCard s g cardId).1 = true) :
    ((c.exhaust = true →
        (applyCard s g cardId).2.1.runMeta.exhausted.contains cardId = true ∧
        (∀ t g2, t.runMeta.exhausted.contains cardId = true →
          (applyCard t g2 cardId).1 = false ∧
          (applyCard t g2 cardId).2.1.runMeta.exhausted.contains cardId = true) ∧
        (∀ t g2 ids, t.runMeta.exhausted.contains cardId = true →
          (stepYear t g2 ids).1.runMeta.exhausted.contains cardId = true)) ∧
     (∀ N, c.cooldownYears = N → 0 < N →
        (∀ k, k < N →
          ((tickCooldowns^[k] (applyCard s g cardId).2.1).runMeta.cooldowns
            cardId).isSome = true) ∧
        (tickCooldowns^[N] (applyCard s g cardId).2.1).runMeta.cooldowns
          cardId = none ∧
        (∀ t, (t.runMeta.cooldowns c.id).isSome = true →
          isCardPlayable t c = false))) := by
  have hpa := List.find?_some hf
  have hid : c.id = cardId := of_decide_eq_true hpa
  have hmem := List.mem_of_find?_eq_some hf
  have hbasic := card_apply_basic c hmem s g
  have hp : isCardPlayable s c = true := by
    cases hps : isCardPlayable s c with
    | true => rfl
    | false =>
      rw [applyCard_unplayable s g cardId c hf hps] at hok
      exact absurd hok (by simp)
  have heff : (c.apply s g).1 = true := by
    cases hps : (c.apply s g).1 with
    | true => rfl
    | false =>
      rcases applyCard_declined s g cardId c hf hps with heq | heq <;>
        rw [heq] at hok <;> exact absurd hok (by simp)
  have hshape := applyCard_success_shape s g cardId c hf hp heff
  constructor
  · intro hex
    refine ⟨?_, fun t g2 ht => ⟨applyCard_fails_of_exhausted t g2 cardId c hf ht,
        applyCard_exhausted_mono t g2 cardId cardId ht⟩,
      fun t g2 ids ht => stepYear_exhausted_mono t g2 ids cardId ht⟩
    rw [hshape]
    split <;> simp only [hex, if_true] <;> rw [hid] <;>
      exact setAdd_contains_self _ _
  · intro N hN hNpos
    have hcd : (applyCard s g cardId).2.1.runMeta.cooldowns cardId = some N := by
      rw [hshape]
      have hpos : 0 < c.cooldownYears := by omega
      simp only [if_pos hpos]
      rw [hid]
      simp [hN]
    refine ⟨fun k hk => ?_, ?_, fun t ht => not_playable_of_cooldown t c ht⟩
    · rw [tickN_cooldown _ _ _ hcd k hk]
      rfl
    · exact tickN_cooldown_cleared _ _ _ hcd hNpos

/-- The state used by the C4 witness: default config with some investments
and the full catalog unlocked. -/
def exhaustWitnessState : SimState :=
  initDefaultUnlocks { createInitialState {} with invested := 5000 }

/-- C4 witness: the enforcement theorem applied to a successful
`panic_sell` (exhaust) and a successful `overtime_push`
(`cooldownYears = 1`) on concrete states. -/
theorem exhaust_cooldown_enforcement_witness :
    (applyCard exhaustWitnessState 0 "panic_sell").2.1.runMeta.exhausted.contains
      "panic_sell" = true ∧
    (tickCooldowns^[1]
      (applyCard exhaustWitnessState 0 "overtime_push").2.1).runMeta.cooldowns
      "overtime_push" = none :=
  ⟨((exhaust_cooldown_enforcement exhaustWitnessState 0 "panic_sell"
      panicSellCard rfl (by decide)).1 rfl).1,
   ((exhaust_cooldown_enforcement exhaustWitnessState 0 "overtime_push"
      overtimePushCard rfl (by decide)).2 1 rfl (by norm_num)).2.1⟩

theorem foldl_add_eq {α : Type} (l : List (α × ℚ)) (a : ℚ) :
    l.foldl (fun acc x => acc + x.2) a = a + (l.map (·.2)).sum := by
  induction l generalizing a with
  | nil => simp
  | cons y ys ih =>
    simp only [List.foldl_cons, List.map_cons, List.sum_cons, ih]
    ring

theorem pos_weights_sum_pos {α : Type} (y : α × ℚ) (ys : List (α × ℚ))
    (hall : ∀ x ∈ y :: ys, 0 < x.2) : 0 < ((y :: ys).map (·.2)).sum := by
  simp only [List.map_cons, List.sum_cons]
  have h1 : 0 < y.2 := hall y (List.mem_cons_self y ys)
  have h2 : 0 ≤ (ys.map (·.2)).sum := by
    apply List.sum_nonneg
    intro q hq
    obtain ⟨x, hx, rfl⟩ := List.mem_map.mp hq
    exact le_of_lt (hall x (List.mem_cons_of_mem y hx))
  linarith

theorem pickLoop_isSome {α : Type} (v : ℚ) (y : α × ℚ) (ys : List (α × ℚ)) :
    (pickLoop v (y :: ys)).isSome = true := by
  induction ys generalizing v y with
  | nil => simp only [pickLoop]; split <;> simp
  | cons z zs ih =>
    simp only [pickLoop]
    split
    · simp
    · exact ih (v - y.2) z

theorem pickWeighted_none_iff {α : Type} (g : Rng) (items : List (α × ℚ)) :
    (pickWeighted g items).1 = none ↔
      items.filter (fun x => decide (0 < x.2)) = [] := by
  simp only [pickWeighted]
  have hall : ∀ x ∈ items.filter (fun x => decide (0 < x.2)), 0 < x.2 := by
    intro x hx
    have h2 := List.of_mem_filter hx
    exact of_decide_eq_true h2
  split
  · rename_i hcond
    simp only [true_iff]
    cases hpool : items.filter (fun x => decide (0 < x.2)) with
    | nil => rfl
    | cons y ys =>
      exfalso
      rw [hpool] at hcond
      rw [foldl_add_eq, zero_add] at hcond
      have := pos_weights_sum_pos y ys (by rw [← hpool]; exact hall)
      linarith
  · rename_i hcond
    cases hpool : items.filter (fun x => decide (0 < x.2)) with
    | nil =>
      exfalso
      rw [hpool] at hcond
      simp at hcond
    | cons y ys =>
      constructor
      · intro hnone
        exfalso
        have hnone' : pickLoop ((rngNext g).1 *
            List.foldl (fun acc x => acc + x.2) 0 (y :: ys)) (y :: ys) =
              none := hnone
        have hs := pickLoop_isSome ((rngNext g).1 *
            List.foldl (fun acc x => acc + x.2) 0 (y :: ys)) y ys
        rw [hnone'] at hs
        simp at hs
      · intro hcons
        exact absurd hcons (by simp)

/-- The prefix weight sum of the first `n` pool entries. -/
def prefixW {α : Type} (pool : List (α × ℚ)) (n : ℕ) : ℚ :=
  ((pool.take n).map (·.2)).sum

/-- Index `i` is the first pool position whose cumulative weight absorbs the
roll `v` (the JS loop's running value goes non-positive there first). -/
def IsFirstHit {α : Type} (v : ℚ) (pool : List (α × ℚ)) (i : ℕ) : Prop :=
  v ≤ prefixW pool (i + 1) ∧ ∀ j < i, prefixW pool (j + 1) < v

theorem prefixW_cons {α : Type} (y : α × ℚ) (ys : List (α × ℚ)) (n : ℕ) :
    prefixW (y :: ys) (n + 1) = y.2 + prefixW ys n := by
  simp [prefixW]

theorem pickLoop_firstHit {α : Type} (pool : List (α × ℚ)) (v : ℚ) (i : ℕ)
    (hlen : i < pool.length) (hsum : v ≤ (pool.map (·.2)).sum)
    (hhit : IsFirstHit v pool i) :
    pickLoop v pool = some (pool.get ⟨i, hlen⟩).1 := by
  induction pool generalizing v i with
  | nil => exact absurd hlen (by simp)
  | cons y ys ih =>
    obtain ⟨hub, hlb⟩ := hhit
    cases i with
    | zero =>
      have h1 : v - y.2 ≤ 0 := by
        have := hub
        rw [prefixW_cons] at this
        simp only [prefixW, List.take_zero, List.map_nil, List.sum_nil] at this
        linarith
      simp only [pickLoop, if_pos h1]
      rfl
    | succ i =>
      have h0 : prefixW (y :: ys) 1 < v := hlb 0 (Nat.succ_pos i)
      have hy : y.2 < v := by
        rw [prefixW_cons] at h0
        simp only [prefixW, List.take_zero, List.map_nil, List.sum_nil] at h0
        linarith
      have hne : ¬ v - y.2 ≤ 0 := by linarith
      cases ys with
      | nil => exact absurd hlen (by simp)
      | cons z zs =>
        simp only [pickLoop, if_neg hne]
        have hlen' : i < (z :: zs).length := by
          simpa using hlen
        have hsum' : v - y.2 ≤ ((z :: zs).map (·.2)).sum := by
          simp only [List.map_cons, List.sum_cons] at hsum ⊢
          linarith
        have hhit' : IsFirstHit (v - y.2) (z :: zs) i := by
          constructor
          · have := hub
            rw [prefixW_cons] at this
            linarith
          · intro j hj
            have := hlb (j + 1) (by omega)
            rw [prefixW_cons] at this
            linarith
        have := ih (v - y.2) i hlen' hsum' hhit'
        simp only [pickLoop] at this
        exact this

/-- C7: the `pickWeighted` contract — entries with non-positive weight are
filtered out; the result is `null` exactly when no positive-weight entries
remain (equivalently the remaining total is zero); otherwise the drawn
roll `rng() * total` lies in `[0, total)`, the returned item is an element
of the positive-weight pool, and it is the first pool item, in list order,
whose cumulative weight absorbs the roll (`IsFirstHit`). -/
theorem pickWeighted_contract {α : Type} (g : Rng) (items : List (α × ℚ)) :
    ((pickWeighted g items).1 = none ↔
      items.filter (fun x => decide (0 < x.2)) = []) ∧
    (∀ x, (pickWeighted g items).1 = some x →
      x ∈ (items.filter (fun x => decide (0 < x.2))).map Prod.fst) ∧
    (∀ pool, pool = items.filter (fun x => decide (0 < x.2)) → pool ≠ [] →
      0 ≤ (rngNext g).1 * (pool.map (·.2)).sum ∧
      (rngNext g).1 * (pool.map (·.2)).sum < (pool.map (·.2)).sum ∧
      (∀ i (hi : i < pool.length),
        IsFirstHit ((rngNext g).1 * (pool.map (·.2)).sum) pool i →
        (pickWeighted g items).1 = some (pool.get ⟨i, hi⟩).1)) := by
  refine ⟨pickWeighted_none_iff g items, pickWeighted_mem g items, ?_⟩
  intro pool hpool hne
  have hall : ∀ x ∈ pool, 0 < x.2 := by
    rw [hpool]
    intro x hx
    have h2 := List.of_mem_filter hx
    exact of_decide_eq_true h2
  have htot : 0 < (pool.map (·.2)).sum := by
    cases pool with
    | nil => exact absurd rfl hne
    | cons y ys => exact pos_weights_sum_pos y ys hall
  refine ⟨mul_nonneg (rngNext_nonneg g) (le_of_lt htot), ?_, ?_⟩
  · exact (mul_lt_iff_lt_one_left htot).mpr (rngNext_lt_one g)
  · intro i hi hhit
    simp only [pickWeighted]
    rw [if_neg]
    · have hroll : (rngNext g).1 * (pool.map (·.2)).sum <
          (pool.map (·.2)).sum :=
        (mul_lt_iff_lt_one_left htot).mpr (rngNext_lt_one g)
      have hloop := pickLoop_firstHit pool
        ((rngNext g).1 * (pool.map (·.2)).sum) i hi (le_of_lt hroll) hhit
      rw [← hpool, foldl_add_eq, zero_add]
      exact hloop
    · rw [← hpool, foldl_add_eq, zero_add]
      linarith

/-- C7 witness: the contract applied to a concrete two-item list with
weights 1 and 3. -/
theorem pickWeighted_contract_witness :
    "b" ∈ (([("a", (1 : ℚ)), ("b", 3)].filter
      (fun x => decide (0 < x.2))).map Prod.fst) :=
  (pickWeighted_contract 0 [("a", (1 : ℚ)), ("b", 3)]).2.1 "b" (by decide)

theorem biasStep (w k1 k2 : ℚ) (p q r : Prop) [Decidable p] [Decidable q]
    [Decidable r] (hw : 0 < w) (h1 : 0 < k1) (h2 : 0 < k2) :
    0 < (if p then (if q then w * k1 else w) * (if r then k2 else 1) else w) := by
  split_ifs <;> positivity

theorem biasLast (w k : ℚ) (p : Prop) [Decidable p] (hw : 0 < w)
    (hk : 0 < k) : 0 < (if p then w * k else w) := by
  split_ifs <;> positivity

theorem situationalBiasWeight_pos (s : SimState) (c : Card) :
    0 < situationalBiasWeight s c := by
  unfold situationalBiasWeight
  apply biasLast
  · apply biasStep
    · apply biasStep
      · apply biasStep
        · apply biasStep
          · norm_num
          · norm_num
          · norm_num
        · norm_num
        · norm_num
      · norm_num
      · norm_num
    · norm_num
    · norm_num
  · norm_num

theorem drawFrom_extends (s : SimState) (mh : ℕ) (pool : List Card) :
    ∀ (n : ℕ) (hand : List Card) (g : Rng),
      ∃ ext, (drawFrom s mh pool n hand g).1 = hand ++ ext := by
  intro n
  induction n with
  | zero =>
    intro hand g
    exact ⟨[], by simp [drawFrom]⟩
  | succ n ih =>
    intro hand g
    simp only [drawFrom]
    cases hcand : pool.filter (fun c => !(handIds hand).contains c.id) with
    | nil => exact ⟨[], by simp⟩
    | cons y ys =>
      rcases ho : (pickWeighted g ((y :: ys).map
          (fun c => (c, 1 * situationalBiasWeight s c)))).1 with _ | c
      · exact ⟨[], by simp⟩
      · simp only []
        split
        · exact ⟨[c], rfl⟩
        · obtain ⟨ext, hext⟩ := ih (hand ++ [c])
            (pickWeighted g ((y :: ys).map
              (fun c => (c, 1 * situationalBiasWeight s c)))).2
          exact ⟨[c] ++ ext, by rw [hext]; simp⟩

theorem drawFrom_len (s : SimState) (mh : ℕ) (pool : List Card) :
    ∀ (n : ℕ) (hand : List Card) (g : Rng),
      (drawFrom s mh pool n hand g).1.length ≤ hand.length + n := by
  intro n
  induction n with
  | zero =>
    intro hand g
    simp [drawFrom]
  | succ n ih =>
    intro hand g
    simp only [drawFrom]
    cases hcand : pool.filter (fun c => !(handIds hand).contains c.id) with
    | nil => simp
    | cons y ys =>
      rcases ho : (pickWeighted g ((y :: ys).map
          (fun c => (c, 1 * situationalBiasWeight s c)))).1 with _ | c
      · simp
      · simp only []
        split
        · simp only [List.length_append, List.length_cons, List.length_nil]
          omega
        · have := ih (hand ++ [c])
            (pickWeighted g ((y :: ys).map
              (fun c => (c, 1 * situationalBiasWeight s c)))).2
          have hlen2 : (hand ++ [c]).length = hand.length + 1 := by simp
          omega

theorem drawFrom_picked_mem (s : SimState) (g : Rng) (y : Card)
    (ys : List Card) (c : Card)
    (ho : (pickWeighted g ((y :: ys).map
        (fun c => (c, 1 * situationalBiasWeight s c)))).1 = some c) :
    c ∈ y :: ys :=
  mem_of_weighted_pool _ _ _ (pickWeighted_mem _ _ _ ho)

theorem drawFrom_nodup (s : SimState) (mh : ℕ) (pool : List Card) :
    ∀ (n : ℕ) (hand : List Card) (g : Rng), (handIds hand).Nodup →
      (handIds (drawFrom s mh pool n hand g).1).Nodup := by
  intro n
  induction n with
  | zero =>
    intro hand g h
    simpa [drawFrom] using h
  | succ n ih =>
    intro hand g h
    simp only [drawFrom]
    cases hcand : pool.filter (fun c => !(handIds hand).contains c.id) with
    | nil => exact h
    | cons y ys =>
      rcases ho : (pickWeighted g ((y :: ys).map
          (fun c => (c, 1 * situationalBiasWeight s c)))).1 with _ | c
      · exact h
      · have hcmem : c ∈ y :: ys := drawFrom_picked_mem s g y ys c ho
        have hcfilt : c ∈ pool.filter
            (fun c => !(handIds hand).contains c.id) := by
          rw [hcand]
          exact hcmem
        have hnotin := List.of_mem_filter hcfilt
        have hid_not : c.id ∉ handIds hand := by
          intro hmem
          have h3 : (handIds hand).contains c.id = true :=
            List.elem_eq_true_of_mem hmem
          rw [h3] at hnotin
          simp at hnotin
        have hnew : (handIds (hand ++ [c])).Nodup := by
          have heq : handIds (hand ++ [c]) = handIds hand ++ [c.id] := by
            simp [handIds]
          rw [heq]
          simp [List.nodup_append, h, hid_not]
        simp only []
        split
        · exact hnew
        · exact ih (hand ++ [c]) _ hnew

theorem drawFrom_cover (s : SimState) (mh : ℕ) (pool : List Card) :
    ∀ (n : ℕ) (hand : List Card) (g : Rng),
      (drawFrom s mh pool n hand g).1.length = hand.length + n ∨
      mh ≤ (drawFrom s mh pool n hand g).1.length ∨
      ∀ c ∈ pool, c.id ∈ handIds (drawFrom s mh pool n hand g).1 := by
  intro n
  induction n with
  | zero =>
    intro hand g
    left
    simp [drawFrom]
  | succ n ih =>
    intro hand g
    simp only [drawFrom]
    cases hcand : pool.filter (fun c => !(handIds hand).contains c.id) with
    | nil =>
      right; right
      intro c hc
      have hall := List.filter_eq_nil_iff.mp hcand c hc
      have hcont : (handIds hand).contains c.id = true := by
        cases hcc : (handIds hand).contains c.id with
        | true => rfl
        | false =>
          rw [hcc] at hall
          simp at hall
      exact List.mem_of_elem_eq_true hcont
    | cons y ys =>
      rcases ho : (pickWeighted g ((y :: ys).map
          (fun c => (c, 1 * situationalBiasWeight s c)))).1 with _ | c
      · exfalso
        have hmemy : (y, 1 * situationalBiasWeight s y) ∈
            (y :: ys).map (fun c => (c, 1 * situationalBiasWeight s c)) := by
          simp
        have hw : (0 : ℚ) < 1 * situationalBiasWeight s y := by
          rw [one_mul]
          exact situationalBiasWeight_pos s y
        have hfiltmem : (y, 1 * situationalBiasWeight s y) ∈
            ((y :: ys).map (fun c => (c, 1 * situationalBiasWeight s c))).filter
              (fun x => decide (0 < x.2)) :=
          List.mem_filter.mpr ⟨hmemy, decide_eq_true hw⟩
        rw [(pickWeighted_none_iff _ _).mp ho] at hfiltmem
        simp at hfiltmem
      · simp only []
        split
        · rename_i hcap
          right; left
          exact hcap
        · rcases ih (hand ++ [c])
            (pickWeighted g ((y :: ys).map
              (fun c => (c, 1 * situationalBiasWeight s c)))).2 with h1 | h2 | h3
          · left
            have hlen2 : (hand ++ [c]).length = hand.length + 1 := by simp
            omega
          · right; left
            exact h2
          · right; right
            exact h3

theorem handIds_mono (a b : List Card) (x : String) (h : x ∈ handIds a) :
    x ∈ handIds (a ++ b) := by
  unfold handIds at h ⊢
  rw [List.map_append]
  exact List.mem_append_left _ h

theorem drawHand_generic (s : SimState) (g : Rng) (CP UP RP : List Card)
    (WPf : List Card → List Card) (d1 d2 d3 d4 res : List Card × Rng)
    (h1 : d1 = drawFrom s 8 CP 4 [] g)
    (h2 : d2 = drawFrom s 8 UP 2 d1.1 d1.2)
    (h3 : d3 = if (rngNext d2.2).1 < 0.28 then
        drawFrom s 8 RP 1 d2.1 (rngNext d2.2).2
      else (d2.1, (rngNext d2.2).2))
    (h4 : d4 = if (rngNext d3.2).1 < 0.30 then
        drawFrom s 8 (WPf d3.1) 1 d3.1 (rngNext d3.2).2
      else (d3.1, (rngNext d3.2).2))
    (hres : res = if d4.1.length < min 8 6 then
        drawFrom s 8 CP (min 2 (min 8 6 - d4.1.length)) d4.1 d4.2
      else d4) :
    res.1.length ≤ 8 ∧
    (handIds res.1).Nodup ∧
    (res.1.length < 6 → ∀ c ∈ CP, c.id ∈ handIds res.1) := by
  have hL1 : d1.1.length ≤ 4 := by
    rw [h1]
    simpa using drawFrom_len s 8 CP 4 [] g
  have hL2 : d2.1.length ≤ d1.1.length + 2 := by
    rw [h2]
    exact drawFrom_len s 8 UP 2 d1.1 d1.2
  have hnd1 : (handIds d1.1).Nodup := by
    rw [h1]
    exact drawFrom_nodup s 8 CP 4 [] g (by simp [handIds])
  have hnd2 : (handIds d2.1).Nodup := by
    rw [h2]
    exact drawFrom_nodup s 8 UP 2 d1.1 d1.2 hnd1
  have he2 : ∃ e, d2.1 = d1.1 ++ e := by
    rw [h2]
    exact drawFrom_extends s 8 UP 2 d1.1 d1.2
  have hL3 : d3.1.length ≤ d2.1.length + 1 := by
    rw [h3]
    split
    · exact drawFrom_len s 8 RP 1 d2.1 _
    · simp
  have hnd3 : (handIds d3.1).Nodup := by
    rw [h3]
    split
    · exact drawFrom_nodup s 8 RP 1 d2.1 _ hnd2
    · exact hnd2
  have he3 : ∃ e, d3.1 = d2.1 ++ e := by
    rw [h3]
    split
    · exact drawFrom_extends s 8 RP 1 d2.1 _
    · exact ⟨[], by simp⟩
  have hL4 : d4.1.length ≤ d3.1.length + 1 := by
    rw [h4]
    split
    · exact drawFrom_len s 8 (WPf d3.1) 1 d3.1 _
    · simp
  have hnd4 : (handIds d4.1).Nodup := by
    rw [h4]
    split
    · exact drawFrom_nodup s 8 (WPf d3.1) 1 d3.1 _ hnd3
    · exact hnd3
  have he4 : ∃ e, d4.1 = d3.1 ++ e := by
    rw [h4]
    split
    · exact drawFrom_extends s 8 (WPf d3.1) 1 d3.1 _
    · exact ⟨[], by simp⟩
  have hmin68 : (min 8 6 : ℕ) = 6 := by norm_num
  have hcover1 : d1.1.length = ([] : List Card).length + 4 ∨ 8 ≤ d1.1.length ∨
      ∀ c ∈ CP, c.id ∈ handIds d1.1 := by
    rw [h1]
    exact drawFrom_cover s 8 CP 4 [] g
  refine ⟨?_, ?_, ?_⟩
  · rw [hres]
    split
    · rename_i hcond
      rw [hmin68] at hcond
      have hlen := drawFrom_len s 8 CP (min 2 (min 8 6 - d4.1.length)) d4.1 d4.2
      have hK : min 2 (min 8 6 - d4.1.length) ≤ 2 := min_le_left _ _
      omega
    · omega
  · rw [hres]
    split
    · exact drawFrom_nodup s 8 CP _ d4.1 d4.2 hnd4
    · exact hnd4
  · rw [hres]
    split
    · rename_i hcond
      rw [hmin68] at hcond
      intro hsmall c hcmem
      rcases hcover1 with c1 | c1 | c1
      · have hlen1 : d1.1.length = 4 := by simpa using c1
        obtain ⟨e2, he2p⟩ := he2
        obtain ⟨e3, he3p⟩ := he3
        obtain ⟨e4, he4p⟩ := he4
        have hlen4 : 4 ≤ d4.1.length := by
          rw [he4p, he3p, he2p]
          simp [List.length_append, hlen1]
        rcases drawFrom_cover s 8 CP (min 2 (min 8 6 - d4.1.length)) d4.1 d4.2
          with t1 | t2 | t3
        · exfalso
          have hmin2 : min 2 (min 8 6 - d4.1.length) =
              min 8 6 - d4.1.length := by
            rw [min_eq_right]
            omega
          omega
        · exfalso
          omega
        · exact t3 c hcmem
      · exfalso
        omega
      · have hin1 := c1 c hcmem
        obtain ⟨e2, he2p⟩ := he2
        obtain ⟨e3, he3p⟩ := he3
        obtain ⟨e4, he4p⟩ := he4
        have hin4 : c.id ∈ handIds d4.1 := by
          rw [he4p, he3p, he2p]
          exact handIds_mono _ _ _ (handIds_mono _ _ _ (handIds_mono _ _ _ hin1))
        obtain ⟨eF, heF⟩ :=
          drawFrom_extends s 8 CP (min 2 (min 8 6 - d4.1.length)) d4.1 d4.2
        rw [heF]
        exact handIds_mono _ _ _ hin4
    · rename_i hcond
      rw [hmin68] at hcond
      intro hsmall
      exact absurd hsmall hcond

/-- C6: `drawHand` with default options — the returned hand has at most 8
(`maxHand`) cards, contains no duplicate card ids, and if fewer than 6
cards were drawn then every playable common card is already in the hand
(the top-up phase draws from the playable common pool until the hand
reaches `min(maxHand, 6) = 6` or that pool is exhausted). -/
theorem drawHand_spec (s : SimState) (g : Rng) :
    (drawHand s g {}).1.length ≤ 8 ∧
    (handIds (drawHand s g {}).1).Nodup ∧
    ((drawHand s g {}).1.length < 6 →
      ∀ c ∈ CARDS, c.rarity = Rarity.common → isCardPlayable s c = true →
        c.id ∈ handIds (drawHand s g {}).1) := by
  have key := drawHand_generic s g
    ((CARDS.filter (fun c => isCardPlayable s c)).filter
      (fun c => decide (c.rarity = Rarity.common)))
    ((CARDS.filter (fun c => isCardPlayable s c)).filter
      (fun c => decide (c.rarity = Rarity.uncommon)))
    ((CARDS.filter (fun c => isCardPlayable s c)).filter
      (fun c => decide (c.rarity = Rarity.rare)))
    (fun hand => (CARDS.filter (fun c => isCardPlayable s c)).filter
      (fun c => decide (c.ctype = CType.wildcard) &&
        !(handIds hand).contains c.id))
    _ _ _ _ (drawHand s g {}) rfl rfl rfl rfl (by simp only [drawHand])
  refine ⟨key.1, key.2.1, fun hx c hc hrar hplay => key.2.2 hx c ?_⟩
  refine List.mem_filter.mpr ⟨List.mem_filter.mpr ⟨hc, hplay⟩, ?_⟩
  simp [hrar]

/-- The state used by the C6 witness: only `do_nothing` unlocked, so the
hand necessarily stays below 6 cards and must contain every playable
common. -/
def smallHandState : SimState :=
  unlockCards (createInitialState {}) ["do_nothing"]

/-- C6 witness: on a state where only `do_nothing` is playable the drawn
hand has fewer than 6 cards and contains `do_nothing`. -/
theorem drawHand_spec_witness :
    "do_nothing" ∈ handIds (drawHand smallHandState 0 {}).1 :=
  (drawHand_spec smallHandState 0).2.2 (by decide) doNothingCard
    (by simp [CARDS]) rfl (by decide)

/-- The scenario state of the net-worth claim. -/
def netWorthScenario : SimState :=
  { createInitialState {} with
    cash := 100, invested := 50, rentalUnits := 1, debt := 30,
    flags := { medicalDebt := 20 } }

/-- C3: `netWorth` computes exactly
`cash + invested + rentalUnits*15000 - debt - medicalDebt` (it is a pure
function of the state — in this embedding every function is pure, and
`netWorth` returns a number without producing a new state), and on the
scenario state `{cash:100, invested:50, rentalUnits:1, debt:30,
flags:{medicalDebt:20}}` it returns 15100. -/
theorem netWorth_formula :
    (∀ s : SimState,
      netWorth s =
        s.cash + s.invested + s.rentalUnits * 15000 - s.debt -
          s.flags.medicalDebt) ∧
    netWorth netWorthScenario = 15100 := by
  constructor
  · intro s
    rfl
  · decide

/-- C9 counterexample: `createInitialState` does not clamp supplied config
values; a supplied `stress` of 150 is stored as 150, above the documented
0..100 range. -/
theorem createInitialState_no_clamp :
    (createInitialState { stress := some 150 }).stress = 150 ∧
    ¬ (createInitialState { stress := some 150 }).stress ≤ 100 := by
  constructor
  · rfl
  · decide

/-- C9 (amended): `createInitialState` applies the documented defaults
(year=1, cash=8000, invested=0, debt=12000, income=52000, expenses=36000,
stress=25, risk=0.45, discipline=0.50, burnout=0, rentalUnits=0,
sideHustleLevel=0, and the documented flag defaults) when a config field is
absent, and stores supplied config values unchanged (it does not clamp
them). -/
theorem createInitialState_defaults (cfg : SimConfig) :
    ((cfg.year = none → (createInitialState cfg).year = 1) ∧
     (∀ v, cfg.year = some v → (createInitialState cfg).year = v)) ∧
    ((cfg.cash = none → (createInitialState cfg).cash = 8000) ∧
     (∀ v, cfg.cash = some v → (createInitialState cfg).cash = v)) ∧
    ((cfg.invested = none → (createInitialState cfg).invested = 0) ∧
     (∀ v, cfg.invested = some v → (createInitialState cfg).invested = v)) ∧
    ((cfg.debt = none → (createInitialState cfg).debt = 12000) ∧
     (∀ v, cfg.debt = some v → (createInitialState cfg).debt = v)) ∧
    ((cfg.income = none → (createInitialState cfg).income = 52000) ∧
     (∀ v, cfg.income = some v → (createInitialState cfg).income = v)) ∧
    ((cfg.expenses = none → (createInitialState cfg).expenses = 36000) ∧
     (∀ v, cfg.expenses = some v → (createInitialState cfg).expenses = v)) ∧
    ((cfg.stress = none → (createInitialState cfg).stress = 25) ∧
     (∀ v, cfg.stress = some v → (createInitialState cfg).stress = v)) ∧
    ((cfg.risk = none → (createInitialState cfg).risk = 0.45) ∧
     (∀ v, cfg.risk = some v → (createInitialState cfg).risk = v)) ∧
    ((cfg.discipline = none → (createInitialState cfg).discipline = 0.50) ∧
     (∀ v, cfg.discipline = some v → (createInitialState cfg).discipline = v)) ∧
    ((cfg.burnout = none → (createInitialState cfg).burnout = 0) ∧
     (∀ v, cfg.burnout = some v → (createInitialState cfg).burnout = v)) ∧
    ((cfg.rentalUnits = none → (createInitialState cfg).rentalUnits = 0) ∧
     (∀ v, cfg.rentalUnits = some v → (createInitialState cfg).rentalUnits = v)) ∧
    ((cfg.sideHustleLevel = none →
        (createInitialState cfg).sideHustleLevel = 0) ∧
     (∀ v, cfg.sideHustleLevel = some v →
        (createInitialState cfg).sideHustleLevel = v)) ∧
    (createInitialState cfg).flags = {} := by
  refine ⟨⟨?_, ?_⟩, ⟨?_, ?_⟩, ⟨?_, ?_⟩, ⟨?_, ?_⟩, ⟨?_, ?_⟩, ⟨?_, ?_⟩,
    ⟨?_, ?_⟩, ⟨?_, ?_⟩, ⟨?_, ?_⟩, ⟨?_, ?_⟩, ⟨?_, ?_⟩, ⟨?_, ?_⟩, rfl⟩ <;>
    first
      | (intro h; simp [createInitialState, h])
      | (intro v h; simp [createInitialState, h])

/-- C9 witness: the amended-claim theorem applied to the empty config. -/
theorem createInitialState_defaults_witness :
    (createInitialState {}).stress = 25 :=
  ((createInitialState_defaults {}).2.2.2.2.2.2.1).1 rfl

/-- The scenario state of the yearly-cashflow claim (default stress 25). -/
def cashflowScenario : SimState :=
  { createInitialState {} with
    cash := 0, debt := 0, income := 0, expenses := 1000 }

/-- C5: `applyYearlyCashflow` adds `income - expenses` to cash; a negative
balance is zeroed, the absolute shortfall is passed through the
emergency-fund shock buffer (identity at buff 0; otherwise reduced by 7%
per stack via `max 0 (floor (x * (1 - buff*0.07)))`, i.e. up to 21% at the
max of 3 stacks), the buffered shortfall times 1.05 is added to debt, and
stress rises by 10 before clamping.  On the scenario state
`cash=0, debt=0, income=0, expenses=1000, no buff` the result is `cash=0`,
`debt=1050`, and stress exactly 10 higher. -/
theorem applyYearlyCashflow_spec :
    (∀ s : SimState,
      (0 ≤ s.cash + (s.income - s.expenses) →
        applyYearlyCashflow s =
          { s with cash := s.cash + (s.income - s.expenses) }) ∧
      (s.cash + (s.income - s.expenses) < 0 →
        applyYearlyCashflow s =
          { s with
            cash := 0
            debt := s.debt +
              applyShockBuffer s (-(s.cash + (s.income - s.expenses))) * 1.05
            stress := clamp (s.stress + 10) 0 100 }) ∧
      (∀ x, s.flags.emergencyFundBuff ≤ 0 → applyShockBuffer s x = x) ∧
      (∀ x, 0 < s.flags.emergencyFundBuff →
        applyShockBuffer s x =
          max 0 (jsFloor (x * (1 - s.flags.emergencyFundBuff * 0.07))))) ∧
    ((applyYearlyCashflow cashflowScenario).cash = 0 ∧
     (applyYearlyCashflow cashflowScenario).debt = 1050 ∧
     (applyYearlyCashflow cashflowScenario).stress =
       cashflowScenario.stress + 10) := by
  constructor
  · intro s
    refine ⟨?_, ?_, ?_, ?_⟩
    · intro h
      simp only [applyYearlyCashflow]
      rw [if_neg (not_lt.mpr h)]
    · intro h
      simp only [applyYearlyCashflow]
      rw [if_pos h]
    · intro x h
      simp only [applyShockBuffer]
      rw [if_pos h]
    · intro x h
      simp only [applyShockBuffer]
      rw [if_neg (not_le.mpr h)]
  · refine ⟨by decide, by decide, by decide⟩

/-- C5 witness: the claim theorem applied at the scenario state,
discharging the shortfall hypothesis there. -/
theorem applyYearlyCashflow_spec_witness :
    applyYearlyCashflow cashflowScenario =
      { cashflowScenario with
        cash := 0
        debt := cashflowScenario.debt +
          applyShockBuffer cashflowScenario
            (-(cashflowScenario.cash +
               (cashflowScenario.income - cashflowScenario.expenses))) * 1.05
        stress := clamp (cashflowScenario.stress + 10) 0 100 } :=
  ((applyYearlyCashflow_spec.1 cashflowScenario).2.1) (by decide)

/-- C1: determinism of `runSimulation` — the embedding of the engine is a
pure function of the seed, the year count, the initial-state config and
the (deterministic) policy, so two independent runs with equal inputs
produce identical history sequences.  All randomness flows through the
Mulberry32 stream seeded by `createRng`, which is part of these inputs. -/
theorem runSimulation_deterministic (s1 s2 : Seed) (y1 y2 : ℕ)
    (c1 c2 : SimConfig) (p1 p2 : Option Policy)
    (hs : s1 = s2) (hy : y1 = y2) (hc : c1 = c2) (hp : p1 = p2) :
    (runSimulation s1 y1 c1 p1).history = (runSimulation s2 y2 c2 p2).history := by
  subst hs
  subst hy
  subst hc
  subst hp
  rfl

/-- C1 witness: two runs with the same concrete seed/years/config/policy
have identical histories. -/
theorem runSimulation_deterministic_witness :
    (runSimulation (Seed.num 1) 2 {} none).history =
      (runSimulation (Seed.num 1) 2 {} none).history :=
  runSimulation_deterministic (Seed.num 1) (Seed.num 1) 2 2 {} {} none none
    rfl rfl rfl rfl

end FinSim
